import Mathlib

/-!
Verification of the transaction-coordination and query-helper layer of a
persistence module (`src/services/sql.js`).

The development has two parts:

* A functional model of the query-executor helpers (`wrap`, `getRows`,
  `getRowOrNull`, `getValue`, `getMap`, `insert`): each JavaScript helper
  becomes a pure Lean function from the driver's response (and the freshly
  captured call-site trace) to its logs, issued statements and result.

* A small-step interleaving semantics of `doInTransaction` for any number of
  logical call chains running under single-threaded cooperative scheduling.
  Each step corresponds to one atomic segment of the JavaScript between two
  suspension points (`await`s on database statements or on the shared
  transaction promise); database statement completions are nondeterministic
  (they may succeed or fail), as is the scheduler's choice of chain.
-/

namespace Trilium

/-- An SQL value as it appears in a row returned by the driver. -/
inductive SVal where
  | null
  | int (i : Int)
  | str (s : String)
  | undefinedVal
deriving DecidableEq, Repr

/-- A JavaScript `Error` object: its `message` and its captured `stack`. -/
structure JsError where
  message : String
  stack : String
deriving DecidableEq, Repr

/-- A row is a JavaScript object: an ordered association of column names to
values (`Object.keys` returns the keys in insertion order). -/
abbrev Row := List (String × SVal)

/-- JavaScript property read `row[k]` for a string key: value of the first
matching key, `undefined` when absent. -/
def rowGet (r : Row) (k : String) : SVal :=
  match r.find? (fun p => p.1 = k) with
  | some p => p.2
  | none => .undefinedVal

/-- `Object.keys(row)` in insertion order. -/
def objKeys (r : Row) : List String := r.map Prod.fst

/-- `row[Object.keys(row)[0]]` — the value of the first column. -/
def firstVal (r : Row) : SVal :=
  match objKeys r with
  | [] => .undefinedVal
  | k :: _ => rowGet r k

/-- `row[Object.keys(row)[1]]` — the value of the second column. -/
def secondVal (r : Row) : SVal :=
  match objKeys r with
  | _ :: k :: _ => rowGet r k
  | _ => .undefinedVal

/-- JavaScript coercion of a value used as an object property key
(`map[row[keys[0]]]` coerces the key to a string). -/
def svalKey : SVal → String
  | .null => "null"
  | .int i => toString i
  | .str s => s
  | .undefinedVal => "undefined"

/-- The diagnostic log line produced by `wrap` on a driver failure:
`log.error("Error executing query. Inner exception: " + e.stack + thisError.stack)`. -/
def wrapLog (e : JsError) (trace : String) : String :=
  "Error executing query. Inner exception: " ++ e.stack ++ trace

/-- The error value re-raised by `wrap` on a driver failure: the one `Error`
allocated at entry (`thisError`, whose `stack` is the freshly captured
call-site trace), with `thisError.message = e.stack`. -/
def wrapErr (e : JsError) (trace : String) : JsError :=
  { message := e.stack, stack := trace }

/-- `wrap(func)`: runs the driver call and returns its result; on failure it
logs `wrapLog` and throws `wrapErr`.  `trace` is the stack of the `Error`
allocated on entry to `wrap`; `res` is the driver call's outcome. -/
def wrap (trace : String) (res : Except JsError α) : List String × Except JsError α :=
  match res with
  | .ok v => ([], .ok v)
  | .error e => ([wrapLog e trace], .error (wrapErr e trace))

/-- `getRows(query, params)`: `wrap(db => db.all(query, ...params))`. The
driver's `db.all` outcome is `res`. Returns (logs, result). -/
def getRows (trace : String) (res : Except JsError (List Row)) :
    List String × Except JsError (List Row) :=
  wrap trace res

/-- `getRow(query, params)`: `wrap(db => db.get(query, ...params))`. The
driver's `db.get` outcome (first row or `undefined`) is `res`. -/
def getRow (trace : String) (res : Except JsError (Option Row)) :
    List String × Except JsError (Option Row) :=
  wrap trace res

/-- `getRowOrNull`: `all.length > 0 ? all[0] : null` on top of `getRows`. -/
def getRowOrNull (trace : String) (res : Except JsError (List Row)) :
    List String × Except JsError (Option Row) :=
  match getRows trace res with
  | (lg, .ok all) => (lg, .ok (if all.length > 0 then some all[0]! else none))
  | (lg, .error e) => (lg, .error e)

/-- `getValue`: first column of the row delivered by `getRowOrNull`, or `null`
when there is no row (`if (!row) return null`). -/
def getValue (trace : String) (res : Except JsError (List Row)) :
    List String × Except JsError SVal :=
  match getRowOrNull trace res with
  | (lg, .ok none) => (lg, .ok .null)
  | (lg, .ok (some row)) => (lg, .ok (firstVal row))
  | (lg, .error e) => (lg, .error e)

/-- `map[k] = v` on a JavaScript object modelled as an ordered association
list: an existing key keeps its position and gets the new value, a new key is
appended. -/
def objSet : List (String × SVal) → String → SVal → List (String × SVal)
  | [], k, v => [(k, v)]
  | (k', v') :: rest, k, v =>
      if k' = k then (k', v) :: rest else (k', v') :: objSet rest k v

/-- Lookup in the object built by `getMap`. -/
def objLookup : List (String × SVal) → String → Option SVal
  | [], _ => none
  | (k', v') :: rest, k => if k' = k then some v' else objLookup rest k

/-- The loop body of `getMap`: `map[row[keys[0]]] = row[keys[1]]` over all
rows, starting from the empty object. -/
def getMapPure (rows : List Row) : List (String × SVal) :=
  rows.foldl (fun m r => objSet m (svalKey (firstVal r)) (secondVal r)) []

/-- `getMap(query, params)`: builds the first-column→second-column object from
`getRows`. -/
def getMap (trace : String) (res : Except JsError (List Row)) :
    List String × Except JsError (List (String × SVal)) :=
  match getRows trace res with
  | (lg, .ok rows) => (lg, .ok (getMapPure rows))
  | (lg, .error e) => (lg, .error e)

/-- The statement text built by `insert`:
`"INSERT " + (replace ? "OR REPLACE" : "") + " INTO " + table_name + "(" +
columns + ") VALUES (" + questionMarks + ")"`. -/
def insertQuery (table : String) (rec : List (String × SVal)) (rep : Bool) : String :=
  "INSERT " ++ (if rep then "OR REPLACE" else "") ++ " INTO " ++ table ++ "(" ++
    String.intercalate ", " (rec.map Prod.fst) ++ ") VALUES (" ++
    String.intercalate ", " (rec.map (fun _ => "?")) ++ ")"

/-- The observable outcome of one `insert` call: its log lines, the statements
it handed to the driver (query text and bound parameters), and its returned
value (`res.lastID`, absent for the empty-record no-op) or thrown error. -/
structure InsertOutcome where
  logs : List String
  stmts : List (String × List SVal)
  result : Except JsError (Option Int)
deriving Repr

/-- `insert(table_name, rec, replace)`: a record with zero fields logs an
error and returns `undefined` without any statement; otherwise the built
statement is executed through `wrap` (`driver` is the driver's `db.run`
outcome, whose value is `lastID`) and `res.lastID` is returned. -/
def insert (table : String) (rec : List (String × SVal)) (rep : Bool)
    (trace : String) (driver : Except JsError Int) : InsertOutcome :=
  if rec.length = 0 then
    { logs := ["Can't insert empty object into table " ++ table],
      stmts := [],
      result := .ok none }
  else
    match wrap trace driver with
    | (lg, .ok lastID) =>
        { logs := lg,
          stmts := [(insertQuery table rec rep, rec.map Prod.snd)],
          result := .ok (some lastID) }
    | (lg, .error e) =>
        { logs := lg,
          stmts := [(insertQuery table rec rep, rec.map Prod.snd)],
          result := .error e }

/-! ## The transaction coordinator (`doInTransaction`) -/

/-- Errors observable by callers of `doInTransaction`: an error thrown
directly by the supplied work function (`raw`), or the error `wrap` raises
when the statement with the given text fails at the driver (`wrapped`). -/
inductive TErr where
  | raw (e : Nat)
  | wrapped (q : String)
deriving DecidableEq, Repr

/-- The work function handed to `doInTransaction`, as a syntax tree: return a
value, throw an error, await one database statement and continue, or — in
tail position — call `doInTransaction` again on the same call chain. -/
inductive Work where
  | val (v : Int)
  | err (e : Nat)
  | stmt (q : String) (k : Work)
  | nested (k : Work)
deriving DecidableEq, Repr

/-- Database-connection events in issuance order (`begin`, `commit`,
`rollback`, `stmt` record the `db.run` call being made), plus the successful
completion of a COMMIT or ROLLBACK statement (the resolution of its driver
promise). `i` is the issuing chain. -/
inductive Ev where
  | begin (i : Nat)
  | commit (i : Nat)
  | rollback (i : Nat)
  | stmt (i : Nat) (q : String)
  | commitDone (i : Nat)
  | rollbackDone (i : Nat)
deriving DecidableEq, Repr

/-- Entries written through `log.error`: `wrap`'s "Error executing query"
line for a failing statement, or `doInTransaction`'s "Error executing
transaction, executing rollback" line carrying the caught error. -/
inductive LogEntry where
  | queryFail (q : String)
  | txnFail (e : TErr)
deriving DecidableEq, Repr

/-- Where one call chain stands inside `doInTransaction`.

* `start w` — about to enter `doInTransaction(() => w)`;
* `looping w` — at the `while (transactionActive)` condition check;
* `waiting p w` — suspended on `await transactionPromise` where the promise
  captured at the await was `p`;
* `inlineRun`/`inlineStmt` — reentrant branch (`cls` flag already set at
  entry): `work` runs inline, with no executor wrapped around it;
* `ownBegin p w` — owner: slot acquired, promise `p` created, `BEGIN` issued
  and awaited (the outer frame is suspended on `await transactionPromise`);
* `ownRun p w` — owner executing the remaining work `w`;
* `ownStmt p q k` — owner suspended on statement `q` issued by the work;
* `ownCommit p v` — work returned `v`, `COMMIT` issued and awaited;
* `ownRollback p e` — error `e` caught, `ROLLBACK` issued and awaited;
* `stuckOuter p` — the `ROLLBACK` itself failed: the executor died without
  settling `p` or clearing `transactionActive`; the outer frame awaits `p`
  forever;
* `done r` — `doInTransaction` returned (`r` its value or thrown error). -/
inductive ChainState where
  | start (w : Work)
  | looping (w : Work)
  | waiting (p : Nat) (w : Work)
  | inlineRun (w : Work)
  | inlineStmt (q : String) (k : Work)
  | ownBegin (p : Nat) (w : Work)
  | ownRun (p : Nat) (w : Work)
  | ownStmt (p : Nat) (q : String) (k : Work)
  | ownCommit (p : Nat) (v : Int)
  | ownRollback (p : Nat) (e : TErr)
  | stuckOuter (p : Nat)
  | done (r : Except TErr Int)
deriving Repr

/-- Point update of a function out of `Nat`. -/
def upd (f : Nat → α) (i : Nat) (v : α) : Nat → α :=
  fun j => if j = i then v else f j

/-- The global configuration: the module-level mutable state of `sql.js`
(`transactionActive`, `transactionPromise` and how each created promise
settled), the per-chain `cls` flag `isInTransaction`, every chain's position,
and the observable database-event trace and error log. -/
structure Cfg where
  active : Bool
  cur : Option Nat
  nextP : Nat
  settled : Nat → Option (Option TErr)
  isInTransaction : Nat → Bool
  chains : Nat → ChainState
  trace : List Ev
  logs : List (Nat × LogEntry)

/-- Inert filler for chain indices beyond the started chains. -/
def filler : ChainState := .done (.ok 0)

/-- Each listed chain is about to call `doInTransaction` with its work. -/
def initChains (ws : List Work) : Nat → ChainState :=
  fun i =>
    match ws[i]? with
    | some w => .start w
    | none => filler

/-- Initial configuration: `transactionActive = false`, `transactionPromise =
null`, no promise settled, every chain outside any transaction. -/
def initCfg (ws : List Work) : Cfg :=
  { active := false
    cur := none
    nextP := 0
    settled := fun _ => none
    isInTransaction := fun _ => false
    chains := initChains ws
    trace := []
    logs := [] }

/-- One atomic step of the cooperative interleaving semantics: the scheduler
picks a chain and runs it from one suspension point to the next.  Statement
completions are nondeterministic: for every awaited statement there is a
success step and a failure step. -/
inductive Step : Cfg → Cfg → Prop where
  /-- Entering `doInTransaction` with the chain's `isInTransaction` flag
  unset: fall through to the `while` loop. -/
  | enter (c : Cfg) (i : Nat) (w : Work)
      (hc : c.chains i = .start w) (hf : c.isInTransaction i = false) :
      Step c { c with chains := upd c.chains i (.looping w) }
  /-- Entering `doInTransaction` with the flag already set: `return await
  func()` — the work runs inline on this chain. -/
  | enterInline (c : Cfg) (i : Nat) (w : Work)
      (hc : c.chains i = .start w) (hf : c.isInTransaction i = true) :
      Step c { c with chains := upd c.chains i (.inlineRun w) }
  /-- `while (transactionActive)` true: suspend on the current
  `transactionPromise`. -/
  | loopWait (c : Cfg) (i : Nat) (w : Work) (p : Nat)
      (hc : c.chains i = .looping w) (ha : c.active = true) (hp : c.cur = some p) :
      Step c { c with chains := upd c.chains i (.waiting p w) }
  /-- `while (transactionActive)` false: leave the loop and run synchronously
  to the first suspension — set `transactionActive`, create the fresh
  transaction promise, set the `cls` flag, issue `BEGIN` and suspend on it
  (the outer frame then suspends on the new promise). -/
  | loopAcquire (c : Cfg) (i : Nat) (w : Work)
      (hc : c.chains i = .looping w) (ha : c.active = false) :
      Step c { c with
        active := true
        cur := some c.nextP
        nextP := c.nextP + 1
        isInTransaction := upd c.isInTransaction i true
        chains := upd c.chains i (.ownBegin c.nextP w)
        trace := c.trace ++ [.begin i] }
  /-- The awaited promise resolved: resume and re-check the loop condition. -/
  | wakeOk (c : Cfg) (i : Nat) (w : Work) (p : Nat)
      (hc : c.chains i = .waiting p w) (hs : c.settled p = some none) :
      Step c { c with chains := upd c.chains i (.looping w) }
  /-- The awaited promise was rejected with the owner's error `e`: the
  `await` inside the `while` loop throws `e`, which propagates out of this
  chain's `doInTransaction` call. -/
  | wakeErr (c : Cfg) (i : Nat) (w : Work) (p : Nat) (e : TErr)
      (hc : c.chains i = .waiting p w) (hs : c.settled p = some (some e)) :
      Step c { c with chains := upd c.chains i (.done (.error e)) }
  /-- `BEGIN` completed successfully: start executing the work. -/
  | beginOk (c : Cfg) (i : Nat) (p : Nat) (w : Work)
      (hc : c.chains i = .ownBegin p w) :
      Step c { c with chains := upd c.chains i (.ownRun p w) }
  /-- `BEGIN` failed: `wrap` logs and throws; the executor's `catch` logs and
  issues `ROLLBACK`. -/
  | beginFail (c : Cfg) (i : Nat) (p : Nat) (w : Work)
      (hc : c.chains i = .ownBegin p w) :
      Step c { c with
        chains := upd c.chains i (.ownRollback p (.wrapped "BEGIN"))
        trace := c.trace ++ [.rollback i]
        logs := c.logs ++ [(i, .queryFail "BEGIN"), (i, .txnFail (.wrapped "BEGIN"))] }
  /-- The work awaits a statement: issue it and suspend. -/
  | stmtIssue (c : Cfg) (i : Nat) (p : Nat) (q : String) (k : Work)
      (hc : c.chains i = .ownRun p (.stmt q k)) :
      Step c { c with
        chains := upd c.chains i (.ownStmt p q k)
        trace := c.trace ++ [.stmt i q] }
  /-- The work's statement completed: continue the work. -/
  | stmtOk (c : Cfg) (i : Nat) (p : Nat) (q : String) (k : Work)
      (hc : c.chains i = .ownStmt p q k) :
      Step c { c with chains := upd c.chains i (.ownRun p k) }
  /-- The work's statement failed: `wrap` logs and throws, the error
  propagates out of the work into the executor's `catch`, which logs and
  issues `ROLLBACK`. -/
  | stmtFail (c : Cfg) (i : Nat) (p : Nat) (q : String) (k : Work)
      (hc : c.chains i = .ownStmt p q k) :
      Step c { c with
        chains := upd c.chains i (.ownRollback p (.wrapped q))
        trace := c.trace ++ [.rollback i]
        logs := c.logs ++ [(i, .queryFail q), (i, .txnFail (.wrapped q))] }
  /-- The work calls `doInTransaction` again on this chain while the `cls`
  flag is set: the nested call returns `await func()` inline — no `BEGIN`,
  no `COMMIT`, no global state touched. -/
  | nestedJoin (c : Cfg) (i : Nat) (p : Nat) (w : Work)
      (hc : c.chains i = .ownRun p (.nested w)) (hf : c.isInTransaction i = true) :
      Step c { c with chains := upd c.chains i (.ownRun p w) }
  /-- The work returned a value: issue `COMMIT` and suspend on it. -/
  | workVal (c : Cfg) (i : Nat) (p : Nat) (v : Int)
      (hc : c.chains i = .ownRun p (.val v)) :
      Step c { c with
        chains := upd c.chains i (.ownCommit p v)
        trace := c.trace ++ [.commit i] }
  /-- The work threw: the executor's `catch` logs the error and issues
  `ROLLBACK`. -/
  | workErr (c : Cfg) (i : Nat) (p : Nat) (e : Nat)
      (hc : c.chains i = .ownRun p (.err e)) :
      Step c { c with
        chains := upd c.chains i (.ownRollback p (.raw e))
        trace := c.trace ++ [.rollback i]
        logs := c.logs ++ [(i, .txnFail (.raw e))] }
  /-- `COMMIT` completed: clear `transactionActive`, resolve the promise,
  clear the `cls` flag (`finally`); the outer frame's await resumes and
  returns `ret`. -/
  | commitOk (c : Cfg) (i : Nat) (p : Nat) (v : Int)
      (hc : c.chains i = .ownCommit p v) :
      Step c { c with
        active := false
        settled := upd c.settled p (some none)
        isInTransaction := upd c.isInTransaction i false
        chains := upd c.chains i (.done (.ok v))
        trace := c.trace ++ [.commitDone i] }
  /-- `COMMIT` failed: `wrap` logs and throws; the `catch` logs and issues
  `ROLLBACK`, exactly as for a work error. -/
  | commitFail (c : Cfg) (i : Nat) (p : Nat) (v : Int)
      (hc : c.chains i = .ownCommit p v) :
      Step c { c with
        chains := upd c.chains i (.ownRollback p (.wrapped "COMMIT"))
        trace := c.trace ++ [.rollback i]
        logs := c.logs ++ [(i, .queryFail "COMMIT"), (i, .txnFail (.wrapped "COMMIT"))] }
  /-- `ROLLBACK` completed: clear `transactionActive`, reject the promise
  with the caught error, clear the `cls` flag; the outer frame's await
  re-throws the error to the caller. -/
  | rollbackOk (c : Cfg) (i : Nat) (p : Nat) (e : TErr)
      (hc : c.chains i = .ownRollback p e) :
      Step c { c with
        active := false
        settled := upd c.settled p (some (some e))
        isInTransaction := upd c.isInTransaction i false
        chains := upd c.chains i (.done (.error e))
        trace := c.trace ++ [.rollbackDone i] }
  /-- `ROLLBACK` failed: `wrap` logs and throws from inside the `catch`; the
  `finally` still clears the `cls` flag, but `transactionActive = false` and
  `reject(e)` are skipped — the promise never settles and the outer frame's
  await never resumes. -/
  | rollbackFail (c : Cfg) (i : Nat) (p : Nat) (e : TErr)
      (hc : c.chains i = .ownRollback p e) :
      Step c { c with
        isInTransaction := upd c.isInTransaction i false
        chains := upd c.chains i (.stuckOuter p)
        logs := c.logs ++ [(i, .queryFail "ROLLBACK")] }
  /-- Reentrant inline execution: the work awaits a statement. -/
  | inlineStmtIssue (c : Cfg) (i : Nat) (q : String) (k : Work)
      (hc : c.chains i = .inlineRun (.stmt q k)) :
      Step c { c with
        chains := upd c.chains i (.inlineStmt q k)
        trace := c.trace ++ [.stmt i q] }
  /-- Reentrant inline execution: the statement completed. -/
  | inlineStmtOk (c : Cfg) (i : Nat) (q : String) (k : Work)
      (hc : c.chains i = .inlineStmt q k) :
      Step c { c with chains := upd c.chains i (.inlineRun k) }
  /-- Reentrant inline execution: the statement failed; `wrap`'s error
  propagates unchanged out of the reentrant `doInTransaction` call. -/
  | inlineStmtFail (c : Cfg) (i : Nat) (q : String) (k : Work)
      (hc : c.chains i = .inlineStmt q k) :
      Step c { c with
        chains := upd c.chains i (.done (.error (.wrapped q)))
        logs := c.logs ++ [(i, .queryFail q)] }
  /-- Reentrant inline execution of a further nested `doInTransaction`. -/
  | inlineNested (c : Cfg) (i : Nat) (w : Work)
      (hc : c.chains i = .inlineRun (.nested w)) (hf : c.isInTransaction i = true) :
      Step c { c with chains := upd c.chains i (.inlineRun w) }
  /-- Reentrant inline execution finished with a value: returned unchanged. -/
  | inlineVal (c : Cfg) (i : Nat) (v : Int)
      (hc : c.chains i = .inlineRun (.val v)) :
      Step c { c with chains := upd c.chains i (.done (.ok v)) }
  /-- Reentrant inline execution threw: the error propagates unchanged. -/
  | inlineErr (c : Cfg) (i : Nat) (e : Nat)
      (hc : c.chains i = .inlineRun (.err e)) :
      Step c { c with chains := upd c.chains i (.done (.error (.raw e))) }

/-- Zero or more interleaving steps. -/
inductive Steps : Cfg → Cfg → Prop where
  | refl (c : Cfg) : Steps c c
  | tail {a b c : Cfg} : Steps a b → Step b c → Steps a c

/-! ## Trace bookkeeping -/

/-- Scan state "a BEGIN has been issued with no COMMIT/ROLLBACK issued
since". -/
def sOpen (b : Bool) : Ev → Bool
  | .begin _ => true
  | .commit _ => false
  | .rollback _ => false
  | .stmt _ _ => b
  | .commitDone _ => b
  | .rollbackDone _ => b

/-- Scan state "a BEGIN has been issued with no COMMIT/ROLLBACK completion
since" — the BEGIN-to-completion interval of a transaction. -/
def sAct (b : Bool) : Ev → Bool
  | .begin _ => true
  | .commitDone _ => false
  | .rollbackDone _ => false
  | .commit _ => b
  | .rollback _ => b
  | .stmt _ _ => b

/-- Whether the trace ends inside a BEGIN-to-COMMIT/ROLLBACK-issuance
interval. -/
def traceOpen (tr : List Ev) : Bool := tr.foldl sOpen false

/-- Whether the trace ends inside a BEGIN-to-completion interval. -/
def traceActive (tr : List Ev) : Bool := tr.foldl sAct false

/-- An event is admissible at a scan state: a `begin` may appear only when no
interval (in either sense) is in progress. -/
def evOk (o a : Bool) : Ev → Bool
  | .begin _ => !o && !a
  | _ => true

/-- Every `begin` in the list is admissible at its position, starting from
scan states `o`, `a`. -/
def goodFrom (o a : Bool) : List Ev → Bool
  | [] => true
  | e :: tl => evOk o a e && goodFrom (sOpen o e) (sAct a e) tl

theorem traceOpen_append (tr : List Ev) (e : Ev) :
    traceOpen (tr ++ [e]) = sOpen (traceOpen tr) e := by
  simp [traceOpen, List.foldl_append]

theorem traceActive_append (tr : List Ev) (e : Ev) :
    traceActive (tr ++ [e]) = sAct (traceActive tr) e := by
  simp [traceActive, List.foldl_append]

theorem goodFrom_snoc (o a : Bool) (tr : List Ev) (e : Ev) :
    goodFrom o a (tr ++ [e]) =
      (goodFrom o a tr && evOk (tr.foldl sOpen o) (tr.foldl sAct a) e) := by
  induction tr generalizing o a with
  | nil => simp [goodFrom]
  | cons x tl ih =>
      simp only [List.cons_append, goodFrom, List.foldl_cons, List.append_eq, ih,
        Bool.and_assoc]

theorem goodFrom_snoc0 (tr : List Ev) (e : Ev) :
    goodFrom false false (tr ++ [e]) =
      (goodFrom false false tr && evOk (traceOpen tr) (traceActive tr) e) := by
  rw [goodFrom_snoc]
  rfl

/-! ## Chain-state classification and the global invariant -/

/-- Chains holding the slot that have issued `BEGIN` and not yet issued
`COMMIT`/`ROLLBACK`. -/
def isOpen : ChainState → Bool
  | .ownBegin _ _ => true
  | .ownRun _ _ => true
  | .ownStmt _ _ _ => true
  | _ => false

/-- Chains that acquired the slot and have not released it (including a chain
stuck after a failed `ROLLBACK`). -/
def isOwnish : ChainState → Bool
  | .ownBegin _ _ => true
  | .ownRun _ _ => true
  | .ownStmt _ _ _ => true
  | .ownCommit _ _ => true
  | .ownRollback _ _ => true
  | .stuckOuter _ => true
  | _ => false

theorem isOpen_ownish {s : ChainState} (h : isOpen s = true) : isOwnish s = true := by
  cases s <;> simp_all [isOpen, isOwnish]

theorem upd_self (f : Nat → α) (i : Nat) (v : α) : upd f i v i = v := by
  simp [upd]

theorem upd_apply (f : Nat → α) (i : Nat) (v : α) (j : Nat) :
    upd f i v j = if j = i then v else f j := rfl

theorem exists_upd_iff {P : ChainState → Bool} {f : Nat → ChainState} {i : Nat}
    {v : ChainState} (h : P v = P (f i)) :
    (∃ j, P (upd f i v j) = true) ↔ (∃ j, P (f j) = true) := by
  constructor
  · rintro ⟨j, hj⟩
    refine ⟨j, ?_⟩
    rw [upd_apply] at hj
    split at hj
    · next hji => subst hji; rwa [← h]
    · exact hj
  · rintro ⟨j, hj⟩
    by_cases hji : j = i
    · subst hji
      exact ⟨j, by rw [upd_self, h]; exact hj⟩
    · exact ⟨j, by rw [upd_apply, if_neg hji]; exact hj⟩

theorem uniq_upd {P : ChainState → Bool} {f : Nat → ChainState} {i : Nat}
    {v : ChainState}
    (huniq : ∀ a b, P (f a) = true → P (f b) = true → a = b)
    (h : P v = P (f i)) :
    ∀ a b, P (upd f i v a) = true → P (upd f i v b) = true → a = b := by
  intro a b ha hb
  rw [upd_apply] at ha hb
  split at ha <;> split at hb
  · next h1 h2 => rw [h1, h2]
  · next h1 _ => subst h1; exact huniq a b (by rwa [← h]) hb
  · next _ h2 => subst h2; exact huniq a b ha (by rwa [← h])
  · exact huniq a b ha hb

theorem sole_upd {P : ChainState → Bool} {f : Nat → ChainState} {i : Nat}
    {v : ChainState}
    (hnone : ∀ j, P (f j) = false) (hv : P v = true) :
    ∀ j, P (upd f i v j) = true ↔ j = i := by
  intro j
  rw [upd_apply]
  split
  · next hji => simp [hji, hv]
  · next hji => simp [hnone j, hji]

theorem clear_upd {P : ChainState → Bool} {f : Nat → ChainState} {i : Nat}
    {v : ChainState}
    (hall : ∀ j, P (f j) = true → j = i) (hv : P v = false) :
    ∀ j, P (upd f i v j) = false := by
  intro j
  rw [upd_apply]
  split
  · exact hv
  · next hji =>
      cases h : P (f j) with
      | false => rfl
      | true => exact absurd (hall j h) hji

/-- The coordinator invariant, over the parts of the configuration it
constrains: at most one chain owns the slot; `transactionActive` is set
exactly when some chain owns the slot; the trace is inside a
BEGIN-to-close-issuance interval exactly when some owner has an outstanding
`BEGIN`; the trace is inside a BEGIN-to-completion interval exactly when
`transactionActive` is set; and every `begin` in the trace was admissible. -/
structure InvP (a : Bool) (f : Nat → ChainState) (tr : List Ev) : Prop where
  uniq : ∀ i j, isOwnish (f i) = true → isOwnish (f j) = true → i = j
  act : a = true ↔ ∃ i, isOwnish (f i) = true
  opn : traceOpen tr = true ↔ ∃ i, isOpen (f i) = true
  tact : traceActive tr = a
  good : goodFrom false false tr = true

/-- The coordinator invariant on a configuration. -/
def Inv (c : Cfg) : Prop := InvP c.active c.chains c.trace

theorem invP_same {a : Bool} {f : Nat → ChainState} {tr : List Ev}
    (hI : InvP a f tr) (i : Nat) (v : ChainState)
    (hop : isOpen v = isOpen (f i)) (how : isOwnish v = isOwnish (f i)) :
    InvP a (upd f i v) tr where
  uniq := uniq_upd hI.uniq how
  act := hI.act.trans (exists_upd_iff how).symm
  opn := hI.opn.trans (exists_upd_iff hop).symm
  tact := hI.tact
  good := hI.good

theorem invP_neutralEv {a : Bool} {f : Nat → ChainState} {tr : List Ev}
    (hI : InvP a f tr) (i : Nat) (v : ChainState)
    (hop : isOpen v = isOpen (f i)) (how : isOwnish v = isOwnish (f i))
    (j : Nat) (q : String) :
    InvP a (upd f i v) (tr ++ [.stmt j q]) where
  uniq := uniq_upd hI.uniq how
  act := hI.act.trans (exists_upd_iff how).symm
  opn := by
    rw [traceOpen_append]
    exact hI.opn.trans (exists_upd_iff hop).symm
  tact := by rw [traceActive_append]; exact hI.tact
  good := by
    rw [goodFrom_snoc, hI.good]
    rfl

theorem invP_acquire {f : Nat → ChainState} {tr : List Ev}
    (hI : InvP false f tr) (i : Nat) (p : Nat) (w : Work) :
    InvP true (upd f i (.ownBegin p w)) (tr ++ [.begin i]) := by
  have hnone : ∀ j, isOwnish (f j) = false := by
    intro j
    cases h : isOwnish (f j) with
    | false => rfl
    | true => exact absurd (hI.act.mpr ⟨j, h⟩) (by simp)
  have hnoneOp : ∀ j, isOpen (f j) = false := by
    intro j
    cases h : isOpen (f j) with
    | false => rfl
    | true => exact absurd (isOpen_ownish h) (by simp [hnone j])
  have hopnF : traceOpen tr = false := by
    cases h : traceOpen tr with
    | false => rfl
    | true =>
        obtain ⟨j, hj⟩ := hI.opn.mp h
        exact absurd hj (by simp [hnoneOp j])
  refine ⟨?_, ?_, ?_, ?_, ?_⟩
  · intro a b ha hb
    rw [(sole_upd hnone (by rfl) a).mp ha, (sole_upd hnone (by rfl) b).mp hb]
  · exact ⟨fun _ => ⟨i, by rw [upd_self]; rfl⟩, fun _ => rfl⟩
  · rw [traceOpen_append, hopnF]
    exact ⟨fun _ => ⟨i, by rw [upd_self]; rfl⟩, fun _ => rfl⟩
  · rw [traceActive_append, hI.tact]
    rfl
  · rw [goodFrom_snoc0, hI.good, hI.tact, hopnF]
    rfl

theorem invP_closeEv {a : Bool} {f : Nat → ChainState} {tr : List Ev}
    (hI : InvP a f tr) (i : Nat) (v : ChainState) (e : Ev)
    (hi : isOwnish (f i) = true)
    (hvOwn : isOwnish v = true) (hvOp : isOpen v = false)
    (hcl : ∀ b, sOpen b e = false)
    (hne : ∀ b, sAct b e = b)
    (hok : ∀ o oa, evOk o oa e = true) :
    InvP a (upd f i v) (tr ++ [e]) where
  uniq := uniq_upd hI.uniq (by rw [hvOwn, hi])
  act := hI.act.trans (exists_upd_iff (by rw [hvOwn, hi])).symm
  opn := by
    rw [traceOpen_append, hcl]
    constructor
    · intro h; exact absurd h (by simp)
    · rintro ⟨j, hj⟩
      exfalso
      rw [upd_apply] at hj
      split at hj
      · rw [hvOp] at hj; exact absurd hj (by simp)
      · next hji => exact hji (hI.uniq j i (isOpen_ownish hj) hi)
  tact := by rw [traceActive_append, hne]; exact hI.tact
  good := by rw [goodFrom_snoc0, hI.good, hok]; rfl

theorem invP_finish {a : Bool} {f : Nat → ChainState} {tr : List Ev}
    (hI : InvP a f tr) (i : Nat) (v : ChainState) (e : Ev)
    (hi : isOwnish (f i) = true) (hiOp : isOpen (f i) = false)
    (hvOwn : isOwnish v = false) (hvOp : isOpen v = false)
    (hcl : ∀ b, sAct b e = false)
    (hne : ∀ b, sOpen b e = b)
    (hok : ∀ o oa, evOk o oa e = true) :
    InvP false (upd f i v) (tr ++ [e]) := by
  have hall : ∀ j, isOwnish (f j) = true → j = i := fun j hj => hI.uniq j i hj hi
  have hnoneOp : ∀ j, isOpen (f j) = false := by
    intro j
    cases h : isOpen (f j) with
    | false => rfl
    | true =>
        have hji := hall j (isOpen_ownish h)
        subst hji
        exact absurd h (by simp [hiOp])
  have hopnF : traceOpen tr = false := by
    cases h : traceOpen tr with
    | false => rfl
    | true =>
        obtain ⟨j, hj⟩ := hI.opn.mp h
        exact absurd hj (by simp [hnoneOp j])
  refine ⟨?_, ?_, ?_, ?_, ?_⟩
  · intro x y hx _
    exact absurd hx (by simp [clear_upd hall hvOwn x])
  · constructor
    · intro h; exact absurd h (by simp)
    · rintro ⟨j, hj⟩; exact absurd hj (by simp [clear_upd hall hvOwn j])
  · rw [traceOpen_append, hne, hopnF]
    constructor
    · intro h; exact absurd h (by simp)
    · rintro ⟨j, hj⟩
      have hcls : ∀ j, isOpen (upd f i v j) = false :=
        clear_upd (fun j hj => hall j (isOpen_ownish hj)) hvOp
      exact absurd hj (by simp [hcls j])
  · rw [traceActive_append, hcl]
  · rw [goodFrom_snoc0, hI.good, hok]; rfl

theorem inv_init (ws : List Work) : Inv (initCfg ws) := by
  have hcl : ∀ i, isOwnish (initChains ws i) = false ∧ isOpen (initChains ws i) = false := by
    intro i
    unfold initChains
    cases h : ws[i]? with
    | none => simp [filler, isOwnish, isOpen]
    | some w => simp [isOwnish, isOpen]
  refine ⟨?_, ?_, ?_, rfl, rfl⟩
  · intro i j hi _
    exact absurd hi (by simp [initCfg, (hcl i).1])
  · constructor
    · intro h; exact absurd h (by simp [initCfg])
    · rintro ⟨i, hi⟩; exact absurd hi (by simp [initCfg, (hcl i).1])
  · constructor
    · intro h; exact absurd h (by simp [initCfg, traceOpen, List.foldl])
    · rintro ⟨i, hi⟩; exact absurd hi (by simp [initCfg, (hcl i).2])

theorem inv_step {c c' : Cfg} (h : Step c c') (hI : Inv c) : Inv c' := by
  cases h with
  | enter i w hc hf =>
      exact invP_same hI i _ (by simp [hc, isOpen]) (by simp [hc, isOwnish])
  | enterInline i w hc hf =>
      exact invP_same hI i _ (by simp [hc, isOpen]) (by simp [hc, isOwnish])
  | loopWait i w p hc ha hp =>
      exact invP_same hI i _ (by simp [hc, isOpen]) (by simp [hc, isOwnish])
  | loopAcquire i w hc ha =>
      exact invP_acquire (ha ▸ hI) i _ w
  | wakeOk i w p hc hs =>
      exact invP_same hI i _ (by simp [hc, isOpen]) (by simp [hc, isOwnish])
  | wakeErr i w p e hc hs =>
      exact invP_same hI i _ (by simp [hc, isOpen]) (by simp [hc, isOwnish])
  | beginOk i p w hc =>
      exact invP_same hI i _ (by simp [hc, isOpen]) (by simp [hc, isOwnish])
  | beginFail i p w hc =>
      exact invP_closeEv hI i _ _ (by simp [hc, isOwnish]) rfl rfl
        (fun _ => rfl) (fun _ => rfl) (fun _ _ => rfl)
  | stmtIssue i p q k hc =>
      exact invP_neutralEv hI i _ (by simp [hc, isOpen]) (by simp [hc, isOwnish]) i q
  | stmtOk i p q k hc =>
      exact invP_same hI i _ (by simp [hc, isOpen]) (by simp [hc, isOwnish])
  | stmtFail i p q k hc =>
      exact invP_closeEv hI i _ _ (by simp [hc, isOwnish]) rfl rfl
        (fun _ => rfl) (fun _ => rfl) (fun _ _ => rfl)
  | nestedJoin i p w hc hf =>
      exact invP_same hI i _ (by simp [hc, isOpen]) (by simp [hc, isOwnish])
  | workVal i p v hc =>
      exact invP_closeEv hI i _ _ (by simp [hc, isOwnish]) rfl rfl
        (fun _ => rfl) (fun _ => rfl) (fun _ _ => rfl)
  | workErr i p e hc =>
      exact invP_closeEv hI i _ _ (by simp [hc, isOwnish]) rfl rfl
        (fun _ => rfl) (fun _ => rfl) (fun _ _ => rfl)
  | commitOk i p v hc =>
      exact invP_finish hI i _ _ (by simp [hc, isOwnish]) (by simp [hc, isOpen]) rfl rfl
        (fun _ => rfl) (fun _ => rfl) (fun _ _ => rfl)
  | commitFail i p v hc =>
      exact invP_closeEv hI i _ _ (by simp [hc, isOwnish]) rfl rfl
        (fun _ => rfl) (fun _ => rfl) (fun _ _ => rfl)
  | rollbackOk i p e hc =>
      exact invP_finish hI i _ _ (by simp [hc, isOwnish]) (by simp [hc, isOpen]) rfl rfl
        (fun _ => rfl) (fun _ => rfl) (fun _ _ => rfl)
  | rollbackFail i p e hc =>
      exact invP_same hI i _ (by simp [hc, isOpen]) (by simp [hc, isOwnish])
  | inlineStmtIssue i q k hc =>
      exact invP_neutralEv hI i _ (by simp [hc, isOpen]) (by simp [hc, isOwnish]) i q
  | inlineStmtOk i q k hc =>
      exact invP_same hI i _ (by simp [hc, isOpen]) (by simp [hc, isOwnish])
  | inlineStmtFail i q k hc =>
      exact invP_same hI i _ (by simp [hc, isOpen]) (by simp [hc, isOwnish])
  | inlineNested i w hc hf =>
      exact invP_same hI i _ (by simp [hc, isOpen]) (by simp [hc, isOwnish])
  | inlineVal i v hc =>
      exact invP_same hI i _ (by simp [hc, isOpen]) (by simp [hc, isOwnish])
  | inlineErr i e hc =>
      exact invP_same hI i _ (by simp [hc, isOpen]) (by simp [hc, isOwnish])

theorem inv_steps {c c' : Cfg} (h : Steps c c') (hI : Inv c) : Inv c' := by
  induction h with
  | refl => exact hI
  | tail _ hstep ih => exact inv_step hstep ih

theorem inv_reach {ws : List Work} {c : Cfg} (h : Steps (initCfg ws) c) : Inv c :=
  inv_steps h (inv_init ws)

/-! ## Step inversion -/

/-- Inversion view of `Step`: the possible transitions taken by chain `i`,
one constructor per `Step` constructor. -/
inductive StepAt (c c' : Cfg) (i : Nat) : Prop where
  | enter (w : Work) (hc : c.chains i = .start w) (hf : c.isInTransaction i = false)
      (he : c' = { c with chains := upd c.chains i (.looping w) })
  | enterInline (w : Work) (hc : c.chains i = .start w) (hf : c.isInTransaction i = true)
      (he : c' = { c with chains := upd c.chains i (.inlineRun w) })
  | loopWait (w : Work) (p : Nat) (hc : c.chains i = .looping w) (ha : c.active = true)
      (hp : c.cur = some p)
      (he : c' = { c with chains := upd c.chains i (.waiting p w) })
  | loopAcquire (w : Work) (hc : c.chains i = .looping w) (ha : c.active = false)
      (he : c' = { c with
        active := true
        cur := some c.nextP
        nextP := c.nextP + 1
        isInTransaction := upd c.isInTransaction i true
        chains := upd c.chains i (.ownBegin c.nextP w)
        trace := c.trace ++ [.begin i] })
  | wakeOk (w : Work) (p : Nat) (hc : c.chains i = .waiting p w)
      (hs : c.settled p = some none)
      (he : c' = { c with chains := upd c.chains i (.looping w) })
  | wakeErr (w : Work) (p : Nat) (e : TErr) (hc : c.chains i = .waiting p w)
      (hs : c.settled p = some (some e))
      (he : c' = { c with chains := upd c.chains i (.done (.error e)) })
  | beginOk (p : Nat) (w : Work) (hc : c.chains i = .ownBegin p w)
      (he : c' = { c with chains := upd c.chains i (.ownRun p w) })
  | beginFail (p : Nat) (w : Work) (hc : c.chains i = .ownBegin p w)
      (he : c' = { c with
        chains := upd c.chains i (.ownRollback p (.wrapped "BEGIN"))
        trace := c.trace ++ [.rollback i]
        logs := c.logs ++ [(i, .queryFail "BEGIN"), (i, .txnFail (.wrapped "BEGIN"))] })
  | stmtIssue (p : Nat) (q : String) (k : Work) (hc : c.chains i = .ownRun p (.stmt q k))
      (he : c' = { c with
        chains := upd c.chains i (.ownStmt p q k)
        trace := c.trace ++ [.stmt i q] })
  | stmtOk (p : Nat) (q : String) (k : Work) (hc : c.chains i = .ownStmt p q k)
      (he : c' = { c with chains := upd c.chains i (.ownRun p k) })
  | stmtFail (p : Nat) (q : String) (k : Work) (hc : c.chains i = .ownStmt p q k)
      (he : c' = { c with
        chains := upd c.chains i (.ownRollback p (.wrapped q))
        trace := c.trace ++ [.rollback i]
        logs := c.logs ++ [(i, .queryFail q), (i, .txnFail (.wrapped q))] })
  | nestedJoin (p : Nat) (w : Work) (hc : c.chains i = .ownRun p (.nested w))
      (hf : c.isInTransaction i = true)
      (he : c' = { c with chains := upd c.chains i (.ownRun p w) })
  | workVal (p : Nat) (v : Int) (hc : c.chains i = .ownRun p (.val v))
      (he : c' = { c with
        chains := upd c.chains i (.ownCommit p v)
        trace := c.trace ++ [.commit i] })
  | workErr (p : Nat) (e : Nat) (hc : c.chains i = .ownRun p (.err e))
      (he : c' = { c with
        chains := upd c.chains i (.ownRollback p (.raw e))
        trace := c.trace ++ [.rollback i]
        logs := c.logs ++ [(i, .txnFail (.raw e))] })
  | commitOk (p : Nat) (v : Int) (hc : c.chains i = .ownCommit p v)
      (he : c' = { c with
        active := false
        settled := upd c.settled p (some none)
        isInTransaction := upd c.isInTransaction i false
        chains := upd c.chains i (.done (.ok v))
        trace := c.trace ++ [.commitDone i] })
  | commitFail (p : Nat) (v : Int) (hc : c.chains i = .ownCommit p v)
      (he : c' = { c with
        chains := upd c.chains i (.ownRollback p (.wrapped "COMMIT"))
        trace := c.trace ++ [.rollback i]
        logs := c.logs ++ [(i, .queryFail "COMMIT"), (i, .txnFail (.wrapped "COMMIT"))] })
  | rollbackOk (p : Nat) (e : TErr) (hc : c.chains i = .ownRollback p e)
      (he : c' = { c with
        active := false
        settled := upd c.settled p (some (some e))
        isInTransaction := upd c.isInTransaction i false
        chains := upd c.chains i (.done (.error e))
        trace := c.trace ++ [.rollbackDone i] })
  | rollbackFail (p : Nat) (e : TErr) (hc : c.chains i = .ownRollback p e)
      (he : c' = { c with
        isInTransaction := upd c.isInTransaction i false
        chains := upd c.chains i (.stuckOuter p)
        logs := c.logs ++ [(i, .queryFail "ROLLBACK")] })
  | inlineStmtIssue (q : String) (k : Work) (hc : c.chains i = .inlineRun (.stmt q k))
      (he : c' = { c with
        chains := upd c.chains i (.inlineStmt q k)
        trace := c.trace ++ [.stmt i q] })
  | inlineStmtOk (q : String) (k : Work) (hc : c.chains i = .inlineStmt q k)
      (he : c' = { c with chains := upd c.chains i (.inlineRun k) })
  | inlineStmtFail (q : String) (k : Work) (hc : c.chains i = .inlineStmt q k)
      (he : c' = { c with
        chains := upd c.chains i (.done (.error (.wrapped q)))
        logs := c.logs ++ [(i, .queryFail q)] })
  | inlineNested (w : Work) (hc : c.chains i = .inlineRun (.nested w))
      (hf : c.isInTransaction i = true)
      (he : c' = { c with chains := upd c.chains i (.inlineRun w) })
  | inlineVal (v : Int) (hc : c.chains i = .inlineRun (.val v))
      (he : c' = { c with chains := upd c.chains i (.done (.ok v)) })
  | inlineErr (e : Nat) (hc : c.chains i = .inlineRun (.err e))
      (he : c' = { c with chains := upd c.chains i (.done (.error (.raw e))) })

theorem step_inv {c c' : Cfg} (h : Step c c') : ∃ i, StepAt c c' i := by
  cases h with
  | enter i w hc hf => exact ⟨i, .enter w hc hf rfl⟩
  | enterInline i w hc hf => exact ⟨i, .enterInline w hc hf rfl⟩
  | loopWait i w p hc ha hp => exact ⟨i, .loopWait w p hc ha hp rfl⟩
  | loopAcquire i w hc ha => exact ⟨i, .loopAcquire w hc ha rfl⟩
  | wakeOk i w p hc hs => exact ⟨i, .wakeOk w p hc hs rfl⟩
  | wakeErr i w p e hc hs => exact ⟨i, .wakeErr w p e hc hs rfl⟩
  | beginOk i p w hc => exact ⟨i, .beginOk p w hc rfl⟩
  | beginFail i p w hc => exact ⟨i, .beginFail p w hc rfl⟩
  | stmtIssue i p q k hc => exact ⟨i, .stmtIssue p q k hc rfl⟩
  | stmtOk i p q k hc => exact ⟨i, .stmtOk p q k hc rfl⟩
  | stmtFail i p q k hc => exact ⟨i, .stmtFail p q k hc rfl⟩
  | nestedJoin i p w hc hf => exact ⟨i, .nestedJoin p w hc hf rfl⟩
  | workVal i p v hc => exact ⟨i, .workVal p v hc rfl⟩
  | workErr i p e hc => exact ⟨i, .workErr p e hc rfl⟩
  | commitOk i p v hc => exact ⟨i, .commitOk p v hc rfl⟩
  | commitFail i p v hc => exact ⟨i, .commitFail p v hc rfl⟩
  | rollbackOk i p e hc => exact ⟨i, .rollbackOk p e hc rfl⟩
  | rollbackFail i p e hc => exact ⟨i, .rollbackFail p e hc rfl⟩
  | inlineStmtIssue i q k hc => exact ⟨i, .inlineStmtIssue q k hc rfl⟩
  | inlineStmtOk i q k hc => exact ⟨i, .inlineStmtOk q k hc rfl⟩
  | inlineStmtFail i q k hc => exact ⟨i, .inlineStmtFail q k hc rfl⟩
  | inlineNested i w hc hf => exact ⟨i, .inlineNested w hc hf rfl⟩
  | inlineVal i v hc => exact ⟨i, .inlineVal v hc rfl⟩
  | inlineErr i e hc => exact ⟨i, .inlineErr e hc rfl⟩

/-- Chain states from which no constructor of `Step` can fire. -/
def inert : ChainState → Bool
  | .done _ => true
  | .stuckOuter _ => true
  | _ => false

theorem no_step_of_inert {c c' : Cfg} (hin : ∀ i, inert (c.chains i) = true)
    (h : Step c c') : False := by
  obtain ⟨i, H⟩ := step_inv h
  rcases H with ⟨w,hc,hf,rfl⟩|⟨w,hc,hf,rfl⟩|⟨w,p,hc,ha,hp,rfl⟩|⟨w,hc,ha,rfl⟩|⟨w,p,hc,hs,rfl⟩|
    ⟨w,p,e,hc,hs,rfl⟩|⟨p,w,hc,rfl⟩|⟨p,w,hc,rfl⟩|⟨p,q,k,hc,rfl⟩|⟨p,q,k,hc,rfl⟩|⟨p,q,k,hc,rfl⟩|
    ⟨p,w,hc,hf,rfl⟩|⟨p,v,hc,rfl⟩|⟨p,e,hc,rfl⟩|⟨p,v,hc,rfl⟩|⟨p,v,hc,rfl⟩|⟨p,e,hc,rfl⟩|
    ⟨p,e,hc,rfl⟩|⟨q,k,hc,rfl⟩|⟨q,k,hc,rfl⟩|⟨q,k,hc,rfl⟩|⟨w,hc,hf,rfl⟩|⟨v,hc,rfl⟩|⟨e,hc,rfl⟩ <;>
    (have h2 := hin i; rw [hc] at h2; simp [inert] at h2)

/-! ## Small scenario systems: one and two chains -/

/-- A one-chain chain map: chain `0` in state `s`, all other indices inert. -/
def one (s : ChainState) : Nat → ChainState :=
  fun i => match i with
  | 0 => s
  | _ + 1 => filler

/-- A two-chain chain map. -/
def two (s t : ChainState) : Nat → ChainState :=
  fun i => match i with
  | 0 => s
  | 1 => t
  | _ + 2 => filler

theorem initChains_one (w : Work) : initChains [w] = one (.start w) := by
  funext i
  cases i with
  | zero => rfl
  | succ n => cases n <;> rfl

theorem initChains_two (w1 w2 : Work) :
    initChains [w1, w2] = two (.start w1) (.start w2) := by
  funext i
  cases i with
  | zero => rfl
  | succ n => cases n with
    | zero => rfl
    | succ m => cases m <;> rfl

theorem upd_one (s s' : ChainState) : upd (one s) 0 s' = one s' := by
  funext j
  cases j <;> simp [upd, one]

theorem upd_two0 (s t s' : ChainState) : upd (two s t) 0 s' = two s' t := by
  funext j
  cases j with
  | zero => simp [upd, two]
  | succ n => cases n <;> simp [upd, two]

theorem upd_two1 (s t t' : ChainState) : upd (two s t) 1 t' = two s t' := by
  funext j
  cases j with
  | zero => simp [upd, two]
  | succ n => cases n <;> simp [upd, two]

/-- A one-chain boolean map (for the per-chain `cls` flag). -/
def oneB (b : Bool) : Nat → Bool :=
  fun i => match i with
  | 0 => b
  | _ + 1 => false

theorem oneB_zero (b : Bool) : oneB b 0 = b := rfl

theorem oneB_succ (b : Bool) (n : Nat) : oneB b (n + 1) = false := rfl

theorem upd_oneB (b b' : Bool) : upd (oneB b) 0 b' = oneB b' := by
  funext j
  cases j <;> simp [upd, oneB]

theorem flagsInit : (fun _ : Nat => false) = oneB false := by
  funext j
  cases j <;> rfl

theorem one_zero (s : ChainState) : one s 0 = s := rfl

theorem one_succ (s : ChainState) (n : Nat) : one s (n + 1) = filler := rfl

theorem two_zero (s t : ChainState) : two s t 0 = s := rfl

theorem two_one (s t : ChainState) : two s t 1 = t := rfl

theorem two_succ (s t : ChainState) (n : Nat) : two s t (n + 2) = filler := rfl

/-! ## Scenario: a single chain whose work throws (`doInTransaction(() => { throw e })`)

States `eS0`–`eS4` follow the main path; `eS5` is the successful-rollback end,
`eS6` the end where `ROLLBACK` itself failed; `eB2`–`eB4` are the offshoot
where `BEGIN` failed. -/

def eS0 : Cfg := initCfg [.err 5]

def eS1 : Cfg :=
  { active := false, cur := none, nextP := 0, settled := fun _ => none,
    isInTransaction := oneB false, chains := one (.looping (.err 5)),
    trace := [], logs := [] }

def eS2 : Cfg :=
  { active := true, cur := some 0, nextP := 1, settled := fun _ => none,
    isInTransaction := oneB true, chains := one (.ownBegin 0 (.err 5)),
    trace := [.begin 0], logs := [] }

def eS3 : Cfg :=
  { active := true, cur := some 0, nextP := 1, settled := fun _ => none,
    isInTransaction := oneB true, chains := one (.ownRun 0 (.err 5)),
    trace := [.begin 0], logs := [] }

def eS4 : Cfg :=
  { active := true, cur := some 0, nextP := 1, settled := fun _ => none,
    isInTransaction := oneB true, chains := one (.ownRollback 0 (.raw 5)),
    trace := [.begin 0, .rollback 0], logs := [(0, .txnFail (.raw 5))] }

def eS5 : Cfg :=
  { active := false, cur := some 0, nextP := 1,
    settled := upd (fun _ => none) 0 (some (some (.raw 5))),
    isInTransaction := oneB false, chains := one (.done (.error (.raw 5))),
    trace := [.begin 0, .rollback 0, .rollbackDone 0],
    logs := [(0, .txnFail (.raw 5))] }

def eS6 : Cfg :=
  { active := true, cur := some 0, nextP := 1, settled := fun _ => none,
    isInTransaction := oneB false, chains := one (.stuckOuter 0),
    trace := [.begin 0, .rollback 0],
    logs := [(0, .txnFail (.raw 5)), (0, .queryFail "ROLLBACK")] }

def eB2 : Cfg :=
  { active := true, cur := some 0, nextP := 1, settled := fun _ => none,
    isInTransaction := oneB true, chains := one (.ownRollback 0 (.wrapped "BEGIN")),
    trace := [.begin 0, .rollback 0],
    logs := [(0, .queryFail "BEGIN"), (0, .txnFail (.wrapped "BEGIN"))] }

def eB3 : Cfg :=
  { active := false, cur := some 0, nextP := 1,
    settled := upd (fun _ => none) 0 (some (some (.wrapped "BEGIN"))),
    isInTransaction := oneB false, chains := one (.done (.error (.wrapped "BEGIN"))),
    trace := [.begin 0, .rollback 0, .rollbackDone 0],
    logs := [(0, .queryFail "BEGIN"), (0, .txnFail (.wrapped "BEGIN"))] }

def eB4 : Cfg :=
  { active := true, cur := some 0, nextP := 1, settled := fun _ => none,
    isInTransaction := oneB false, chains := one (.stuckOuter 0),
    trace := [.begin 0, .rollback 0],
    logs := [(0, .queryFail "BEGIN"), (0, .txnFail (.wrapped "BEGIN")),
             (0, .queryFail "ROLLBACK")] }

theorem next_eS0 {c' : Cfg} (h : Step eS0 c') : c' = eS1 := by
  obtain ⟨i, H⟩ := step_inv h
  rcases H with ⟨w,hc,hf,rfl⟩|⟨w,hc,hf,rfl⟩|⟨w,p,hc,ha,hp,rfl⟩|⟨w,hc,ha,rfl⟩|⟨w,p,hc,hs,rfl⟩|
    ⟨w,p,e,hc,hs,rfl⟩|⟨p,w,hc,rfl⟩|⟨p,w,hc,rfl⟩|⟨p,q,k,hc,rfl⟩|⟨p,q,k,hc,rfl⟩|⟨p,q,k,hc,rfl⟩|
    ⟨p,w,hc,hf,rfl⟩|⟨p,v,hc,rfl⟩|⟨p,e,hc,rfl⟩|⟨p,v,hc,rfl⟩|⟨p,v,hc,rfl⟩|⟨p,e,hc,rfl⟩|
    ⟨p,e,hc,rfl⟩|⟨q,k,hc,rfl⟩|⟨q,k,hc,rfl⟩|⟨q,k,hc,rfl⟩|⟨w,hc,hf,rfl⟩|⟨v,hc,rfl⟩|⟨e,hc,rfl⟩ <;>
  rcases i with _ | i <;>
  simp_all [eS0, eS1, initCfg, initChains_one, one_zero, one_succ, upd_one, upd_self,
    flagsInit, oneB_zero, oneB_succ, upd_oneB, filler]

theorem next_eS1 {c' : Cfg} (h : Step eS1 c') : c' = eS2 := by
  obtain ⟨i, H⟩ := step_inv h
  rcases H with ⟨w,hc,hf,rfl⟩|⟨w,hc,hf,rfl⟩|⟨w,p,hc,ha,hp,rfl⟩|⟨w,hc,ha,rfl⟩|⟨w,p,hc,hs,rfl⟩|
    ⟨w,p,e,hc,hs,rfl⟩|⟨p,w,hc,rfl⟩|⟨p,w,hc,rfl⟩|⟨p,q,k,hc,rfl⟩|⟨p,q,k,hc,rfl⟩|⟨p,q,k,hc,rfl⟩|
    ⟨p,w,hc,hf,rfl⟩|⟨p,v,hc,rfl⟩|⟨p,e,hc,rfl⟩|⟨p,v,hc,rfl⟩|⟨p,v,hc,rfl⟩|⟨p,e,hc,rfl⟩|
    ⟨p,e,hc,rfl⟩|⟨q,k,hc,rfl⟩|⟨q,k,hc,rfl⟩|⟨q,k,hc,rfl⟩|⟨w,hc,hf,rfl⟩|⟨v,hc,rfl⟩|⟨e,hc,rfl⟩ <;>
  rcases i with _ | i <;>
  simp_all [eS1, eS2, one_zero, one_succ, upd_one, upd_self,
    oneB_zero, oneB_succ, upd_oneB, filler]

theorem next_eS2 {c' : Cfg} (h : Step eS2 c') : c' = eS3 ∨ c' = eB2 := by
  obtain ⟨i, H⟩ := step_inv h
  rcases H with ⟨w,hc,hf,rfl⟩|⟨w,hc,hf,rfl⟩|⟨w,p,hc,ha,hp,rfl⟩|⟨w,hc,ha,rfl⟩|⟨w,p,hc,hs,rfl⟩|
    ⟨w,p,e,hc,hs,rfl⟩|⟨p,w,hc,rfl⟩|⟨p,w,hc,rfl⟩|⟨p,q,k,hc,rfl⟩|⟨p,q,k,hc,rfl⟩|⟨p,q,k,hc,rfl⟩|
    ⟨p,w,hc,hf,rfl⟩|⟨p,v,hc,rfl⟩|⟨p,e,hc,rfl⟩|⟨p,v,hc,rfl⟩|⟨p,v,hc,rfl⟩|⟨p,e,hc,rfl⟩|
    ⟨p,e,hc,rfl⟩|⟨q,k,hc,rfl⟩|⟨q,k,hc,rfl⟩|⟨q,k,hc,rfl⟩|⟨w,hc,hf,rfl⟩|⟨v,hc,rfl⟩|⟨e,hc,rfl⟩ <;>
  rcases i with _ | i <;>
  simp_all [eS2, eS3, eB2, one_zero, one_succ, upd_one, upd_self,
    oneB_zero, oneB_succ, upd_oneB, filler] <;>
  (try obtain ⟨rfl, rfl, rfl⟩ := hc) <;>
  (try obtain ⟨rfl, rfl⟩ := hc) <;>
  (try subst_vars) <;>
  simp_all [eS2, eS3, eB2, one_zero, one_succ, upd_one, upd_self,
    oneB_zero, oneB_succ, upd_oneB, filler]

theorem next_eS3 {c' : Cfg} (h : Step eS3 c') : c' = eS4 := by
  obtain ⟨i, H⟩ := step_inv h
  rcases H with ⟨w,hc,hf,rfl⟩|⟨w,hc,hf,rfl⟩|⟨w,p,hc,ha,hp,rfl⟩|⟨w,hc,ha,rfl⟩|⟨w,p,hc,hs,rfl⟩|
    ⟨w,p,e,hc,hs,rfl⟩|⟨p,w,hc,rfl⟩|⟨p,w,hc,rfl⟩|⟨p,q,k,hc,rfl⟩|⟨p,q,k,hc,rfl⟩|⟨p,q,k,hc,rfl⟩|
    ⟨p,w,hc,hf,rfl⟩|⟨p,v,hc,rfl⟩|⟨p,e,hc,rfl⟩|⟨p,v,hc,rfl⟩|⟨p,v,hc,rfl⟩|⟨p,e,hc,rfl⟩|
    ⟨p,e,hc,rfl⟩|⟨q,k,hc,rfl⟩|⟨q,k,hc,rfl⟩|⟨q,k,hc,rfl⟩|⟨w,hc,hf,rfl⟩|⟨v,hc,rfl⟩|⟨e,hc,rfl⟩ <;>
  rcases i with _ | i <;>
  simp_all [eS3, eS4, one_zero, one_succ, upd_one, upd_self,
    oneB_zero, oneB_succ, upd_oneB, filler] <;>
  (try obtain ⟨rfl, rfl, rfl⟩ := hc) <;>
  (try obtain ⟨rfl, rfl⟩ := hc) <;>
  (try subst_vars) <;>
  simp_all [eS3, eS4, one_zero, one_succ, upd_one, upd_self,
    oneB_zero, oneB_succ, upd_oneB, filler]

theorem next_eS4 {c' : Cfg} (h : Step eS4 c') : c' = eS5 ∨ c' = eS6 := by
  obtain ⟨i, H⟩ := step_inv h
  rcases H with ⟨w,hc,hf,rfl⟩|⟨w,hc,hf,rfl⟩|⟨w,p,hc,ha,hp,rfl⟩|⟨w,hc,ha,rfl⟩|⟨w,p,hc,hs,rfl⟩|
    ⟨w,p,e,hc,hs,rfl⟩|⟨p,w,hc,rfl⟩|⟨p,w,hc,rfl⟩|⟨p,q,k,hc,rfl⟩|⟨p,q,k,hc,rfl⟩|⟨p,q,k,hc,rfl⟩|
    ⟨p,w,hc,hf,rfl⟩|⟨p,v,hc,rfl⟩|⟨p,e,hc,rfl⟩|⟨p,v,hc,rfl⟩|⟨p,v,hc,rfl⟩|⟨p,e,hc,rfl⟩|
    ⟨p,e,hc,rfl⟩|⟨q,k,hc,rfl⟩|⟨q,k,hc,rfl⟩|⟨q,k,hc,rfl⟩|⟨w,hc,hf,rfl⟩|⟨v,hc,rfl⟩|⟨e,hc,rfl⟩ <;>
  rcases i with _ | i <;>
  simp_all [eS4, eS5, eS6, one_zero, one_succ, upd_one, upd_self,
    oneB_zero, oneB_succ, upd_oneB, filler] <;>
  (try obtain ⟨rfl, rfl, rfl⟩ := hc) <;>
  (try obtain ⟨rfl, rfl⟩ := hc) <;>
  (try subst_vars) <;>
  simp_all [eS4, eS5, eS6, one_zero, one_succ, upd_one, upd_self,
    oneB_zero, oneB_succ, upd_oneB, filler]

theorem next_eB2 {c' : Cfg} (h : Step eB2 c') : c' = eB3 ∨ c' = eB4 := by
  obtain ⟨i, H⟩ := step_inv h
  rcases H with ⟨w,hc,hf,rfl⟩|⟨w,hc,hf,rfl⟩|⟨w,p,hc,ha,hp,rfl⟩|⟨w,hc,ha,rfl⟩|⟨w,p,hc,hs,rfl⟩|
    ⟨w,p,e,hc,hs,rfl⟩|⟨p,w,hc,rfl⟩|⟨p,w,hc,rfl⟩|⟨p,q,k,hc,rfl⟩|⟨p,q,k,hc,rfl⟩|⟨p,q,k,hc,rfl⟩|
    ⟨p,w,hc,hf,rfl⟩|⟨p,v,hc,rfl⟩|⟨p,e,hc,rfl⟩|⟨p,v,hc,rfl⟩|⟨p,v,hc,rfl⟩|⟨p,e,hc,rfl⟩|
    ⟨p,e,hc,rfl⟩|⟨q,k,hc,rfl⟩|⟨q,k,hc,rfl⟩|⟨q,k,hc,rfl⟩|⟨w,hc,hf,rfl⟩|⟨v,hc,rfl⟩|⟨e,hc,rfl⟩ <;>
  rcases i with _ | i <;>
  simp_all [eB2, eB3, eB4, one_zero, one_succ, upd_one, upd_self,
    oneB_zero, oneB_succ, upd_oneB, filler] <;>
  (try obtain ⟨rfl, rfl, rfl⟩ := hc) <;>
  (try obtain ⟨rfl, rfl⟩ := hc) <;>
  (try subst_vars) <;>
  simp_all [eB2, eB3, eB4, one_zero, one_succ, upd_one, upd_self,
    oneB_zero, oneB_succ, upd_oneB, filler]

theorem next_eS5 {c' : Cfg} (h : Step eS5 c') : False :=
  no_step_of_inert (fun i => by cases i <;> simp [eS5, one, inert, filler]) h

theorem next_eS6 {c' : Cfg} (h : Step eS6 c') : False :=
  no_step_of_inert (fun i => by cases i <;> simp [eS6, one, inert, filler]) h

theorem next_eB3 {c' : Cfg} (h : Step eB3 c') : False :=
  no_step_of_inert (fun i => by cases i <;> simp [eB3, one, inert, filler]) h

theorem next_eB4 {c' : Cfg} (h : Step eB4 c') : False :=
  no_step_of_inert (fun i => by cases i <;> simp [eB4, one, inert, filler]) h

theorem reach_errWork {c : Cfg} (h : Steps eS0 c) :
    c = eS0 ∨ c = eS1 ∨ c = eS2 ∨ c = eS3 ∨ c = eS4 ∨ c = eS5 ∨ c = eS6 ∨
    c = eB2 ∨ c = eB3 ∨ c = eB4 := by
  induction h with
  | refl => exact Or.inl rfl
  | tail _ hstep ih =>
      rcases ih with rfl|rfl|rfl|rfl|rfl|rfl|rfl|rfl|rfl|rfl
      · rw [next_eS0 hstep]; simp
      · rw [next_eS1 hstep]; simp
      · rcases next_eS2 hstep with rfl|rfl <;> simp
      · rw [next_eS3 hstep]; simp
      · rcases next_eS4 hstep with rfl|rfl <;> simp
      · exact (next_eS5 hstep).elim
      · exact (next_eS6 hstep).elim
      · rcases next_eB2 hstep with rfl|rfl <;> simp
      · exact (next_eB3 hstep).elim
      · exact (next_eB4 hstep).elim

/-! ## Scenario: a single chain whose work returns a value
(`doInTransaction(() => 7)`), with the COMMIT-failure offshoot. -/

def vS0 : Cfg := initCfg [.val 7]

def vS1 : Cfg :=
  { active := false, cur := none, nextP := 0, settled := fun _ => none,
    isInTransaction := oneB false, chains := one (.looping (.val 7)),
    trace := [], logs := [] }

def vS2 : Cfg :=
  { active := true, cur := some 0, nextP := 1, settled := fun _ => none,
    isInTransaction := oneB true, chains := one (.ownBegin 0 (.val 7)),
    trace := [.begin 0], logs := [] }

def vS3 : Cfg :=
  { active := true, cur := some 0, nextP := 1, settled := fun _ => none,
    isInTransaction := oneB true, chains := one (.ownRun 0 (.val 7)),
    trace := [.begin 0], logs := [] }

def vS4 : Cfg :=
  { active := true, cur := some 0, nextP := 1, settled := fun _ => none,
    isInTransaction := oneB true, chains := one (.ownCommit 0 7),
    trace := [.begin 0, .commit 0], logs := [] }

def vS5 : Cfg :=
  { active := false, cur := some 0, nextP := 1,
    settled := upd (fun _ => none) 0 (some none),
    isInTransaction := oneB false, chains := one (.done (.ok 7)),
    trace := [.begin 0, .commit 0, .commitDone 0], logs := [] }

def vC6 : Cfg :=
  { active := true, cur := some 0, nextP := 1, settled := fun _ => none,
    isInTransaction := oneB true, chains := one (.ownRollback 0 (.wrapped "COMMIT")),
    trace := [.begin 0, .commit 0, .rollback 0],
    logs := [(0, .queryFail "COMMIT"), (0, .txnFail (.wrapped "COMMIT"))] }

def vC7 : Cfg :=
  { active := false, cur := some 0, nextP := 1,
    settled := upd (fun _ => none) 0 (some (some (.wrapped "COMMIT"))),
    isInTransaction := oneB false, chains := one (.done (.error (.wrapped "COMMIT"))),
    trace := [.begin 0, .commit 0, .rollback 0, .rollbackDone 0],
    logs := [(0, .queryFail "COMMIT"), (0, .txnFail (.wrapped "COMMIT"))] }

def vC8 : Cfg :=
  { active := true, cur := some 0, nextP := 1, settled := fun _ => none,
    isInTransaction := oneB false, chains := one (.stuckOuter 0),
    trace := [.begin 0, .commit 0, .rollback 0],
    logs := [(0, .queryFail "COMMIT"), (0, .txnFail (.wrapped "COMMIT")),
             (0, .queryFail "ROLLBACK")] }

def vB2 : Cfg :=
  { active := true, cur := some 0, nextP := 1, settled := fun _ => none,
    isInTransaction := oneB true, chains := one (.ownRollback 0 (.wrapped "BEGIN")),
    trace := [.begin 0, .rollback 0],
    logs := [(0, .queryFail "BEGIN"), (0, .txnFail (.wrapped "BEGIN"))] }

theorem next_vS0 {c' : Cfg} (h : Step vS0 c') : c' = vS1 := by
  obtain ⟨i, H⟩ := step_inv h
  rcases H with ⟨w,hc,hf,rfl⟩|⟨w,hc,hf,rfl⟩|⟨w,p,hc,ha,hp,rfl⟩|⟨w,hc,ha,rfl⟩|⟨w,p,hc,hs,rfl⟩|
    ⟨w,p,e,hc,hs,rfl⟩|⟨p,w,hc,rfl⟩|⟨p,w,hc,rfl⟩|⟨p,q,k,hc,rfl⟩|⟨p,q,k,hc,rfl⟩|⟨p,q,k,hc,rfl⟩|
    ⟨p,w,hc,hf,rfl⟩|⟨p,v,hc,rfl⟩|⟨p,e,hc,rfl⟩|⟨p,v,hc,rfl⟩|⟨p,v,hc,rfl⟩|⟨p,e,hc,rfl⟩|
    ⟨p,e,hc,rfl⟩|⟨q,k,hc,rfl⟩|⟨q,k,hc,rfl⟩|⟨q,k,hc,rfl⟩|⟨w,hc,hf,rfl⟩|⟨v,hc,rfl⟩|⟨e,hc,rfl⟩ <;>
  rcases i with _ | i <;>
  simp_all [vS0, vS1, initCfg, initChains_one, flagsInit, one_zero, one_succ, upd_one, upd_self, oneB_zero, oneB_succ, upd_oneB, filler] <;>
  (try obtain ⟨rfl, rfl, rfl⟩ := hc) <;>
  (try obtain ⟨rfl, rfl⟩ := hc) <;>
  (try subst_vars) <;>
  simp_all [vS0, vS1, initCfg, initChains_one, flagsInit, one_zero, one_succ, upd_one, upd_self, oneB_zero, oneB_succ, upd_oneB, filler]

theorem next_vS1 {c' : Cfg} (h : Step vS1 c') : c' = vS2 := by
  obtain ⟨i, H⟩ := step_inv h
  rcases H with ⟨w,hc,hf,rfl⟩|⟨w,hc,hf,rfl⟩|⟨w,p,hc,ha,hp,rfl⟩|⟨w,hc,ha,rfl⟩|⟨w,p,hc,hs,rfl⟩|
    ⟨w,p,e,hc,hs,rfl⟩|⟨p,w,hc,rfl⟩|⟨p,w,hc,rfl⟩|⟨p,q,k,hc,rfl⟩|⟨p,q,k,hc,rfl⟩|⟨p,q,k,hc,rfl⟩|
    ⟨p,w,hc,hf,rfl⟩|⟨p,v,hc,rfl⟩|⟨p,e,hc,rfl⟩|⟨p,v,hc,rfl⟩|⟨p,v,hc,rfl⟩|⟨p,e,hc,rfl⟩|
    ⟨p,e,hc,rfl⟩|⟨q,k,hc,rfl⟩|⟨q,k,hc,rfl⟩|⟨q,k,hc,rfl⟩|⟨w,hc,hf,rfl⟩|⟨v,hc,rfl⟩|⟨e,hc,rfl⟩ <;>
  rcases i with _ | i <;>
  simp_all [vS1, vS2, one_zero, one_succ, upd_one, upd_self, oneB_zero, oneB_succ, upd_oneB, filler] <;>
  (try obtain ⟨rfl, rfl, rfl⟩ := hc) <;>
  (try obtain ⟨rfl, rfl⟩ := hc) <;>
  (try subst_vars) <;>
  simp_all [vS1, vS2, one_zero, one_succ, upd_one, upd_self, oneB_zero, oneB_succ, upd_oneB, filler]

theorem next_vS2 {c' : Cfg} (h : Step vS2 c') : c' = vS3 ∨ c' = vB2 := by
  obtain ⟨i, H⟩ := step_inv h
  rcases H with ⟨w,hc,hf,rfl⟩|⟨w,hc,hf,rfl⟩|⟨w,p,hc,ha,hp,rfl⟩|⟨w,hc,ha,rfl⟩|⟨w,p,hc,hs,rfl⟩|
    ⟨w,p,e,hc,hs,rfl⟩|⟨p,w,hc,rfl⟩|⟨p,w,hc,rfl⟩|⟨p,q,k,hc,rfl⟩|⟨p,q,k,hc,rfl⟩|⟨p,q,k,hc,rfl⟩|
    ⟨p,w,hc,hf,rfl⟩|⟨p,v,hc,rfl⟩|⟨p,e,hc,rfl⟩|⟨p,v,hc,rfl⟩|⟨p,v,hc,rfl⟩|⟨p,e,hc,rfl⟩|
    ⟨p,e,hc,rfl⟩|⟨q,k,hc,rfl⟩|⟨q,k,hc,rfl⟩|⟨q,k,hc,rfl⟩|⟨w,hc,hf,rfl⟩|⟨v,hc,rfl⟩|⟨e,hc,rfl⟩ <;>
  rcases i with _ | i <;>
  simp_all [vS2, vS3, vB2, one_zero, one_succ, upd_one, upd_self, oneB_zero, oneB_succ, upd_oneB, filler] <;>
  (try obtain ⟨rfl, rfl, rfl⟩ := hc) <;>
  (try obtain ⟨rfl, rfl⟩ := hc) <;>
  (try subst_vars) <;>
  simp_all [vS2, vS3, vB2, one_zero, one_succ, upd_one, upd_self, oneB_zero, oneB_succ, upd_oneB, filler]

theorem next_vS3 {c' : Cfg} (h : Step vS3 c') : c' = vS4 := by
  obtain ⟨i, H⟩ := step_inv h
  rcases H with ⟨w,hc,hf,rfl⟩|⟨w,hc,hf,rfl⟩|⟨w,p,hc,ha,hp,rfl⟩|⟨w,hc,ha,rfl⟩|⟨w,p,hc,hs,rfl⟩|
    ⟨w,p,e,hc,hs,rfl⟩|⟨p,w,hc,rfl⟩|⟨p,w,hc,rfl⟩|⟨p,q,k,hc,rfl⟩|⟨p,q,k,hc,rfl⟩|⟨p,q,k,hc,rfl⟩|
    ⟨p,w,hc,hf,rfl⟩|⟨p,v,hc,rfl⟩|⟨p,e,hc,rfl⟩|⟨p,v,hc,rfl⟩|⟨p,v,hc,rfl⟩|⟨p,e,hc,rfl⟩|
    ⟨p,e,hc,rfl⟩|⟨q,k,hc,rfl⟩|⟨q,k,hc,rfl⟩|⟨q,k,hc,rfl⟩|⟨w,hc,hf,rfl⟩|⟨v,hc,rfl⟩|⟨e,hc,rfl⟩ <;>
  rcases i with _ | i <;>
  simp_all [vS3, vS4, one_zero, one_succ, upd_one, upd_self, oneB_zero, oneB_succ, upd_oneB, filler] <;>
  (try obtain ⟨rfl, rfl, rfl⟩ := hc) <;>
  (try obtain ⟨rfl, rfl⟩ := hc) <;>
  (try subst_vars) <;>
  simp_all [vS3, vS4, one_zero, one_succ, upd_one, upd_self, oneB_zero, oneB_succ, upd_oneB, filler]

theorem next_vS4 {c' : Cfg} (h : Step vS4 c') : c' = vS5 ∨ c' = vC6 := by
  obtain ⟨i, H⟩ := step_inv h
  rcases H with ⟨w,hc,hf,rfl⟩|⟨w,hc,hf,rfl⟩|⟨w,p,hc,ha,hp,rfl⟩|⟨w,hc,ha,rfl⟩|⟨w,p,hc,hs,rfl⟩|
    ⟨w,p,e,hc,hs,rfl⟩|⟨p,w,hc,rfl⟩|⟨p,w,hc,rfl⟩|⟨p,q,k,hc,rfl⟩|⟨p,q,k,hc,rfl⟩|⟨p,q,k,hc,rfl⟩|
    ⟨p,w,hc,hf,rfl⟩|⟨p,v,hc,rfl⟩|⟨p,e,hc,rfl⟩|⟨p,v,hc,rfl⟩|⟨p,v,hc,rfl⟩|⟨p,e,hc,rfl⟩|
    ⟨p,e,hc,rfl⟩|⟨q,k,hc,rfl⟩|⟨q,k,hc,rfl⟩|⟨q,k,hc,rfl⟩|⟨w,hc,hf,rfl⟩|⟨v,hc,rfl⟩|⟨e,hc,rfl⟩ <;>
  rcases i with _ | i <;>
  simp_all [vS4, vS5, vC6, one_zero, one_succ, upd_one, upd_self, oneB_zero, oneB_succ, upd_oneB, filler] <;>
  (try obtain ⟨rfl, rfl, rfl⟩ := hc) <;>
  (try obtain ⟨rfl, rfl⟩ := hc) <;>
  (try subst_vars) <;>
  simp_all [vS4, vS5, vC6, one_zero, one_succ, upd_one, upd_self, oneB_zero, oneB_succ, upd_oneB, filler]

theorem next_vC6 {c' : Cfg} (h : Step vC6 c') : c' = vC7 ∨ c' = vC8 := by
  obtain ⟨i, H⟩ := step_inv h
  rcases H with ⟨w,hc,hf,rfl⟩|⟨w,hc,hf,rfl⟩|⟨w,p,hc,ha,hp,rfl⟩|⟨w,hc,ha,rfl⟩|⟨w,p,hc,hs,rfl⟩|
    ⟨w,p,e,hc,hs,rfl⟩|⟨p,w,hc,rfl⟩|⟨p,w,hc,rfl⟩|⟨p,q,k,hc,rfl⟩|⟨p,q,k,hc,rfl⟩|⟨p,q,k,hc,rfl⟩|
    ⟨p,w,hc,hf,rfl⟩|⟨p,v,hc,rfl⟩|⟨p,e,hc,rfl⟩|⟨p,v,hc,rfl⟩|⟨p,v,hc,rfl⟩|⟨p,e,hc,rfl⟩|
    ⟨p,e,hc,rfl⟩|⟨q,k,hc,rfl⟩|⟨q,k,hc,rfl⟩|⟨q,k,hc,rfl⟩|⟨w,hc,hf,rfl⟩|⟨v,hc,rfl⟩|⟨e,hc,rfl⟩ <;>
  rcases i with _ | i <;>
  simp_all [vC6, vC7, vC8, one_zero, one_succ, upd_one, upd_self, oneB_zero, oneB_succ, upd_oneB, filler] <;>
  (try obtain ⟨rfl, rfl, rfl⟩ := hc) <;>
  (try obtain ⟨rfl, rfl⟩ := hc) <;>
  (try subst_vars) <;>
  simp_all [vC6, vC7, vC8, one_zero, one_succ, upd_one, upd_self, oneB_zero, oneB_succ, upd_oneB, filler]

theorem next_vB2 {c' : Cfg} (h : Step vB2 c') : c' = eB3 ∨ c' = eB4 := by
  obtain ⟨i, H⟩ := step_inv h
  rcases H with ⟨w,hc,hf,rfl⟩|⟨w,hc,hf,rfl⟩|⟨w,p,hc,ha,hp,rfl⟩|⟨w,hc,ha,rfl⟩|⟨w,p,hc,hs,rfl⟩|
    ⟨w,p,e,hc,hs,rfl⟩|⟨p,w,hc,rfl⟩|⟨p,w,hc,rfl⟩|⟨p,q,k,hc,rfl⟩|⟨p,q,k,hc,rfl⟩|⟨p,q,k,hc,rfl⟩|
    ⟨p,w,hc,hf,rfl⟩|⟨p,v,hc,rfl⟩|⟨p,e,hc,rfl⟩|⟨p,v,hc,rfl⟩|⟨p,v,hc,rfl⟩|⟨p,e,hc,rfl⟩|
    ⟨p,e,hc,rfl⟩|⟨q,k,hc,rfl⟩|⟨q,k,hc,rfl⟩|⟨q,k,hc,rfl⟩|⟨w,hc,hf,rfl⟩|⟨v,hc,rfl⟩|⟨e,hc,rfl⟩ <;>
  rcases i with _ | i <;>
  simp_all [vB2, eB3, eB4, one_zero, one_succ, upd_one, upd_self, oneB_zero, oneB_succ, upd_oneB, filler] <;>
  (try obtain ⟨rfl, rfl, rfl⟩ := hc) <;>
  (try obtain ⟨rfl, rfl⟩ := hc) <;>
  (try subst_vars) <;>
  simp_all [vB2, eB3, eB4, one_zero, one_succ, upd_one, upd_self, oneB_zero, oneB_succ, upd_oneB, filler]

theorem next_vS5 {c' : Cfg} (h : Step vS5 c') : False :=
  no_step_of_inert (fun i => by cases i <;> simp [vS5, one, inert, filler]) h

theorem next_vC7 {c' : Cfg} (h : Step vC7 c') : False :=
  no_step_of_inert (fun i => by cases i <;> simp [vC7, one, inert, filler]) h

theorem next_vC8 {c' : Cfg} (h : Step vC8 c') : False :=
  no_step_of_inert (fun i => by cases i <;> simp [vC8, one, inert, filler]) h

theorem reach_valWork {c : Cfg} (h : Steps vS0 c) :
    c = vS0 ∨ c = vS1 ∨ c = vS2 ∨ c = vS3 ∨ c = vS4 ∨ c = vS5 ∨
    c = vC6 ∨ c = vC7 ∨ c = vC8 ∨ c = vB2 ∨ c = eB3 ∨ c = eB4 := by
  induction h with
  | refl => exact Or.inl rfl
  | tail _ hstep ih =>
      rcases ih with rfl|rfl|rfl|rfl|rfl|rfl|rfl|rfl|rfl|rfl|rfl|rfl
      · rw [next_vS0 hstep]; simp
      · rw [next_vS1 hstep]; simp
      · rcases next_vS2 hstep with rfl|rfl <;> simp
      · rw [next_vS3 hstep]; simp
      · rcases next_vS4 hstep with rfl|rfl <;> simp
      · exact (next_vS5 hstep).elim
      · rcases next_vC6 hstep with rfl|rfl <;> simp
      · exact (next_vC7 hstep).elim
      · exact (next_vC8 hstep).elim
      · rcases next_vB2 hstep with rfl|rfl <;> simp
      · exact (next_eB3 hstep).elim
      · exact (next_eB4 hstep).elim

/-! ## Scenario: a single chain running a nested transaction
(`doInTransaction(() => doInTransaction(() => insert('notes', ...)))`). -/

/-- The statement issued by `insert('notes', {noteId: 'n1'})`. -/
def qIns : String := insertQuery "notes" [("noteId", .str "n1")] false

/-- The nested work: an inner `doInTransaction` whose work runs one insert
statement and returns 7. -/
def wNested : Work := .nested (.stmt qIns (.val 7))

def nS0 : Cfg := initCfg [wNested]

def nS1 : Cfg :=
  { active := false, cur := none, nextP := 0, settled := fun _ => none,
    isInTransaction := oneB false, chains := one (.looping wNested),
    trace := [], logs := [] }

def nS2 : Cfg :=
  { active := true, cur := some 0, nextP := 1, settled := fun _ => none,
    isInTransaction := oneB true, chains := one (.ownBegin 0 wNested),
    trace := [.begin 0], logs := [] }

def nS3 : Cfg :=
  { active := true, cur := some 0, nextP := 1, settled := fun _ => none,
    isInTransaction := oneB true, chains := one (.ownRun 0 wNested),
    trace := [.begin 0], logs := [] }

def nS4 : Cfg :=
  { active := true, cur := some 0, nextP := 1, settled := fun _ => none,
    isInTransaction := oneB true, chains := one (.ownRun 0 (.stmt qIns (.val 7))),
    trace := [.begin 0], logs := [] }

def nS5 : Cfg :=
  { active := true, cur := some 0, nextP := 1, settled := fun _ => none,
    isInTransaction := oneB true, chains := one (.ownStmt 0 qIns (.val 7)),
    trace := [.begin 0, .stmt 0 qIns], logs := [] }

def nS6 : Cfg :=
  { active := true, cur := some 0, nextP := 1, settled := fun _ => none,
    isInTransaction := oneB true, chains := one (.ownRun 0 (.val 7)),
    trace := [.begin 0, .stmt 0 qIns], logs := [] }

def nS7 : Cfg :=
  { active := true, cur := some 0, nextP := 1, settled := fun _ => none,
    isInTransaction := oneB true, chains := one (.ownCommit 0 7),
    trace := [.begin 0, .stmt 0 qIns, .commit 0], logs := [] }

def nS8 : Cfg :=
  { active := false, cur := some 0, nextP := 1,
    settled := upd (fun _ => none) 0 (some none),
    isInTransaction := oneB false, chains := one (.done (.ok 7)),
    trace := [.begin 0, .stmt 0 qIns, .commit 0, .commitDone 0], logs := [] }

def nB2 : Cfg :=
  { active := true, cur := some 0, nextP := 1, settled := fun _ => none,
    isInTransaction := oneB true, chains := one (.ownRollback 0 (.wrapped "BEGIN")),
    trace := [.begin 0, .rollback 0],
    logs := [(0, .queryFail "BEGIN"), (0, .txnFail (.wrapped "BEGIN"))] }

def nF6 : Cfg :=
  { active := true, cur := some 0, nextP := 1, settled := fun _ => none,
    isInTransaction := oneB true, chains := one (.ownRollback 0 (.wrapped qIns)),
    trace := [.begin 0, .stmt 0 qIns, .rollback 0],
    logs := [(0, .queryFail qIns), (0, .txnFail (.wrapped qIns))] }

def nF7 : Cfg :=
  { active := false, cur := some 0, nextP := 1,
    settled := upd (fun _ => none) 0 (some (some (.wrapped qIns))),
    isInTransaction := oneB false, chains := one (.done (.error (.wrapped qIns))),
    trace := [.begin 0, .stmt 0 qIns, .rollback 0, .rollbackDone 0],
    logs := [(0, .queryFail qIns), (0, .txnFail (.wrapped qIns))] }

def nF8 : Cfg :=
  { active := true, cur := some 0, nextP := 1, settled := fun _ => none,
    isInTransaction := oneB false, chains := one (.stuckOuter 0),
    trace := [.begin 0, .stmt 0 qIns, .rollback 0],
    logs := [(0, .queryFail qIns), (0, .txnFail (.wrapped qIns)),
             (0, .queryFail "ROLLBACK")] }

def nC8 : Cfg :=
  { active := true, cur := some 0, nextP := 1, settled := fun _ => none,
    isInTransaction := oneB true, chains := one (.ownRollback 0 (.wrapped "COMMIT")),
    trace := [.begin 0, .stmt 0 qIns, .commit 0, .rollback 0],
    logs := [(0, .queryFail "COMMIT"), (0, .txnFail (.wrapped "COMMIT"))] }

def nC9 : Cfg :=
  { active := false, cur := some 0, nextP := 1,
    settled := upd (fun _ => none) 0 (some (some (.wrapped "COMMIT"))),
    isInTransaction := oneB false, chains := one (.done (.error (.wrapped "COMMIT"))),
    trace := [.begin 0, .stmt 0 qIns, .commit 0, .rollback 0, .rollbackDone 0],
    logs := [(0, .queryFail "COMMIT"), (0, .txnFail (.wrapped "COMMIT"))] }

def nC10 : Cfg :=
  { active := true, cur := some 0, nextP := 1, settled := fun _ => none,
    isInTransaction := oneB false, chains := one (.stuckOuter 0),
    trace := [.begin 0, .stmt 0 qIns, .commit 0, .rollback 0],
    logs := [(0, .queryFail "COMMIT"), (0, .txnFail (.wrapped "COMMIT")),
             (0, .queryFail "ROLLBACK")] }

theorem next_nS0 {c' : Cfg} (h : Step nS0 c') : c' = nS1 := by
  obtain ⟨i, H⟩ := step_inv h
  rcases H with ⟨w,hc,hf,rfl⟩|⟨w,hc,hf,rfl⟩|⟨w,p,hc,ha,hp,rfl⟩|⟨w,hc,ha,rfl⟩|⟨w,p,hc,hs,rfl⟩|
    ⟨w,p,e,hc,hs,rfl⟩|⟨p,w,hc,rfl⟩|⟨p,w,hc,rfl⟩|⟨p,q,k,hc,rfl⟩|⟨p,q,k,hc,rfl⟩|⟨p,q,k,hc,rfl⟩|
    ⟨p,w,hc,hf,rfl⟩|⟨p,v,hc,rfl⟩|⟨p,e,hc,rfl⟩|⟨p,v,hc,rfl⟩|⟨p,v,hc,rfl⟩|⟨p,e,hc,rfl⟩|
    ⟨p,e,hc,rfl⟩|⟨q,k,hc,rfl⟩|⟨q,k,hc,rfl⟩|⟨q,k,hc,rfl⟩|⟨w,hc,hf,rfl⟩|⟨v,hc,rfl⟩|⟨e,hc,rfl⟩ <;>
  rcases i with _ | i <;>
  simp_all [nS0, nS1, initCfg, initChains_one, flagsInit, one_zero, one_succ, upd_one, upd_self, oneB_zero, oneB_succ, upd_oneB, filler] <;>
  (try obtain ⟨rfl, rfl, rfl⟩ := hc) <;>
  (try obtain ⟨rfl, rfl⟩ := hc) <;>
  (try subst_vars) <;>
  simp_all [nS0, nS1, initCfg, initChains_one, flagsInit, one_zero, one_succ, upd_one, upd_self, oneB_zero, oneB_succ, upd_oneB, filler]

theorem next_nS1 {c' : Cfg} (h : Step nS1 c') : c' = nS2 := by
  obtain ⟨i, H⟩ := step_inv h
  rcases H with ⟨w,hc,hf,rfl⟩|⟨w,hc,hf,rfl⟩|⟨w,p,hc,ha,hp,rfl⟩|⟨w,hc,ha,rfl⟩|⟨w,p,hc,hs,rfl⟩|
    ⟨w,p,e,hc,hs,rfl⟩|⟨p,w,hc,rfl⟩|⟨p,w,hc,rfl⟩|⟨p,q,k,hc,rfl⟩|⟨p,q,k,hc,rfl⟩|⟨p,q,k,hc,rfl⟩|
    ⟨p,w,hc,hf,rfl⟩|⟨p,v,hc,rfl⟩|⟨p,e,hc,rfl⟩|⟨p,v,hc,rfl⟩|⟨p,v,hc,rfl⟩|⟨p,e,hc,rfl⟩|
    ⟨p,e,hc,rfl⟩|⟨q,k,hc,rfl⟩|⟨q,k,hc,rfl⟩|⟨q,k,hc,rfl⟩|⟨w,hc,hf,rfl⟩|⟨v,hc,rfl⟩|⟨e,hc,rfl⟩ <;>
  rcases i with _ | i <;>
  simp_all [nS1, nS2, flagsInit, one_zero, one_succ, upd_one, upd_self, oneB_zero, oneB_succ, upd_oneB, filler] <;>
  (try obtain ⟨rfl, rfl, rfl⟩ := hc) <;>
  (try obtain ⟨rfl, rfl⟩ := hc) <;>
  (try subst_vars) <;>
  simp_all [nS1, nS2, flagsInit, one_zero, one_succ, upd_one, upd_self, oneB_zero, oneB_succ, upd_oneB, filler]

theorem next_nS2 {c' : Cfg} (h : Step nS2 c') : c' = nS3 ∨ c' = nB2 := by
  obtain ⟨i, H⟩ := step_inv h
  rcases H with ⟨w,hc,hf,rfl⟩|⟨w,hc,hf,rfl⟩|⟨w,p,hc,ha,hp,rfl⟩|⟨w,hc,ha,rfl⟩|⟨w,p,hc,hs,rfl⟩|
    ⟨w,p,e,hc,hs,rfl⟩|⟨p,w,hc,rfl⟩|⟨p,w,hc,rfl⟩|⟨p,q,k,hc,rfl⟩|⟨p,q,k,hc,rfl⟩|⟨p,q,k,hc,rfl⟩|
    ⟨p,w,hc,hf,rfl⟩|⟨p,v,hc,rfl⟩|⟨p,e,hc,rfl⟩|⟨p,v,hc,rfl⟩|⟨p,v,hc,rfl⟩|⟨p,e,hc,rfl⟩|
    ⟨p,e,hc,rfl⟩|⟨q,k,hc,rfl⟩|⟨q,k,hc,rfl⟩|⟨q,k,hc,rfl⟩|⟨w,hc,hf,rfl⟩|⟨v,hc,rfl⟩|⟨e,hc,rfl⟩ <;>
  rcases i with _ | i <;>
  simp_all [nS2, nS3, nB2, wNested, flagsInit, one_zero, one_succ, upd_one, upd_self, oneB_zero, oneB_succ, upd_oneB, filler] <;>
  (try obtain ⟨rfl, rfl, rfl⟩ := hc) <;>
  (try obtain ⟨rfl, rfl⟩ := hc) <;>
  (try subst_vars) <;>
  simp_all [nS2, nS3, nB2, wNested, flagsInit, one_zero, one_succ, upd_one, upd_self, oneB_zero, oneB_succ, upd_oneB, filler]

theorem next_nS3 {c' : Cfg} (h : Step nS3 c') : c' = nS4 := by
  obtain ⟨i, H⟩ := step_inv h
  rcases H with ⟨w,hc,hf,rfl⟩|⟨w,hc,hf,rfl⟩|⟨w,p,hc,ha,hp,rfl⟩|⟨w,hc,ha,rfl⟩|⟨w,p,hc,hs,rfl⟩|
    ⟨w,p,e,hc,hs,rfl⟩|⟨p,w,hc,rfl⟩|⟨p,w,hc,rfl⟩|⟨p,q,k,hc,rfl⟩|⟨p,q,k,hc,rfl⟩|⟨p,q,k,hc,rfl⟩|
    ⟨p,w,hc,hf,rfl⟩|⟨p,v,hc,rfl⟩|⟨p,e,hc,rfl⟩|⟨p,v,hc,rfl⟩|⟨p,v,hc,rfl⟩|⟨p,e,hc,rfl⟩|
    ⟨p,e,hc,rfl⟩|⟨q,k,hc,rfl⟩|⟨q,k,hc,rfl⟩|⟨q,k,hc,rfl⟩|⟨w,hc,hf,rfl⟩|⟨v,hc,rfl⟩|⟨e,hc,rfl⟩ <;>
  rcases i with _ | i <;>
  simp_all [nS3, nS4, wNested, flagsInit, one_zero, one_succ, upd_one, upd_self, oneB_zero, oneB_succ, upd_oneB, filler] <;>
  (try obtain ⟨rfl, rfl, rfl⟩ := hc) <;>
  (try obtain ⟨rfl, rfl⟩ := hc) <;>
  (try subst_vars) <;>
  simp_all [nS3, nS4, wNested, flagsInit, one_zero, one_succ, upd_one, upd_self, oneB_zero, oneB_succ, upd_oneB, filler]

theorem next_nS4 {c' : Cfg} (h : Step nS4 c') : c' = nS5 := by
  obtain ⟨i, H⟩ := step_inv h
  rcases H with ⟨w,hc,hf,rfl⟩|⟨w,hc,hf,rfl⟩|⟨w,p,hc,ha,hp,rfl⟩|⟨w,hc,ha,rfl⟩|⟨w,p,hc,hs,rfl⟩|
    ⟨w,p,e,hc,hs,rfl⟩|⟨p,w,hc,rfl⟩|⟨p,w,hc,rfl⟩|⟨p,q,k,hc,rfl⟩|⟨p,q,k,hc,rfl⟩|⟨p,q,k,hc,rfl⟩|
    ⟨p,w,hc,hf,rfl⟩|⟨p,v,hc,rfl⟩|⟨p,e,hc,rfl⟩|⟨p,v,hc,rfl⟩|⟨p,v,hc,rfl⟩|⟨p,e,hc,rfl⟩|
    ⟨p,e,hc,rfl⟩|⟨q,k,hc,rfl⟩|⟨q,k,hc,rfl⟩|⟨q,k,hc,rfl⟩|⟨w,hc,hf,rfl⟩|⟨v,hc,rfl⟩|⟨e,hc,rfl⟩ <;>
  rcases i with _ | i <;>
  simp_all [nS4, nS5, flagsInit, one_zero, one_succ, upd_one, upd_self, oneB_zero, oneB_succ, upd_oneB, filler] <;>
  (try obtain ⟨rfl, rfl, rfl⟩ := hc) <;>
  (try obtain ⟨rfl, rfl⟩ := hc) <;>
  (try subst_vars) <;>
  simp_all [nS4, nS5, flagsInit, one_zero, one_succ, upd_one, upd_self, oneB_zero, oneB_succ, upd_oneB, filler]

theorem next_nS5 {c' : Cfg} (h : Step nS5 c') : c' = nS6 ∨ c' = nF6 := by
  obtain ⟨i, H⟩ := step_inv h
  rcases H with ⟨w,hc,hf,rfl⟩|⟨w,hc,hf,rfl⟩|⟨w,p,hc,ha,hp,rfl⟩|⟨w,hc,ha,rfl⟩|⟨w,p,hc,hs,rfl⟩|
    ⟨w,p,e,hc,hs,rfl⟩|⟨p,w,hc,rfl⟩|⟨p,w,hc,rfl⟩|⟨p,q,k,hc,rfl⟩|⟨p,q,k,hc,rfl⟩|⟨p,q,k,hc,rfl⟩|
    ⟨p,w,hc,hf,rfl⟩|⟨p,v,hc,rfl⟩|⟨p,e,hc,rfl⟩|⟨p,v,hc,rfl⟩|⟨p,v,hc,rfl⟩|⟨p,e,hc,rfl⟩|
    ⟨p,e,hc,rfl⟩|⟨q,k,hc,rfl⟩|⟨q,k,hc,rfl⟩|⟨q,k,hc,rfl⟩|⟨w,hc,hf,rfl⟩|⟨v,hc,rfl⟩|⟨e,hc,rfl⟩ <;>
  rcases i with _ | i <;>
  simp_all [nS5, nS6, nF6, flagsInit, one_zero, one_succ, upd_one, upd_self, oneB_zero, oneB_succ, upd_oneB, filler] <;>
  (try obtain ⟨rfl, rfl, rfl⟩ := hc) <;>
  (try obtain ⟨rfl, rfl⟩ := hc) <;>
  (try subst_vars) <;>
  simp_all [nS5, nS6, nF6, flagsInit, one_zero, one_succ, upd_one, upd_self, oneB_zero, oneB_succ, upd_oneB, filler]

theorem next_nS6 {c' : Cfg} (h : Step nS6 c') : c' = nS7 := by
  obtain ⟨i, H⟩ := step_inv h
  rcases H with ⟨w,hc,hf,rfl⟩|⟨w,hc,hf,rfl⟩|⟨w,p,hc,ha,hp,rfl⟩|⟨w,hc,ha,rfl⟩|⟨w,p,hc,hs,rfl⟩|
    ⟨w,p,e,hc,hs,rfl⟩|⟨p,w,hc,rfl⟩|⟨p,w,hc,rfl⟩|⟨p,q,k,hc,rfl⟩|⟨p,q,k,hc,rfl⟩|⟨p,q,k,hc,rfl⟩|
    ⟨p,w,hc,hf,rfl⟩|⟨p,v,hc,rfl⟩|⟨p,e,hc,rfl⟩|⟨p,v,hc,rfl⟩|⟨p,v,hc,rfl⟩|⟨p,e,hc,rfl⟩|
    ⟨p,e,hc,rfl⟩|⟨q,k,hc,rfl⟩|⟨q,k,hc,rfl⟩|⟨q,k,hc,rfl⟩|⟨w,hc,hf,rfl⟩|⟨v,hc,rfl⟩|⟨e,hc,rfl⟩ <;>
  rcases i with _ | i <;>
  simp_all [nS6, nS7, flagsInit, one_zero, one_succ, upd_one, upd_self, oneB_zero, oneB_succ, upd_oneB, filler] <;>
  (try obtain ⟨rfl, rfl, rfl⟩ := hc) <;>
  (try obtain ⟨rfl, rfl⟩ := hc) <;>
  (try subst_vars) <;>
  simp_all [nS6, nS7, flagsInit, one_zero, one_succ, upd_one, upd_self, oneB_zero, oneB_succ, upd_oneB, filler]

theorem next_nS7 {c' : Cfg} (h : Step nS7 c') : c' = nS8 ∨ c' = nC8 := by
  obtain ⟨i, H⟩ := step_inv h
  rcases H with ⟨w,hc,hf,rfl⟩|⟨w,hc,hf,rfl⟩|⟨w,p,hc,ha,hp,rfl⟩|⟨w,hc,ha,rfl⟩|⟨w,p,hc,hs,rfl⟩|
    ⟨w,p,e,hc,hs,rfl⟩|⟨p,w,hc,rfl⟩|⟨p,w,hc,rfl⟩|⟨p,q,k,hc,rfl⟩|⟨p,q,k,hc,rfl⟩|⟨p,q,k,hc,rfl⟩|
    ⟨p,w,hc,hf,rfl⟩|⟨p,v,hc,rfl⟩|⟨p,e,hc,rfl⟩|⟨p,v,hc,rfl⟩|⟨p,v,hc,rfl⟩|⟨p,e,hc,rfl⟩|
    ⟨p,e,hc,rfl⟩|⟨q,k,hc,rfl⟩|⟨q,k,hc,rfl⟩|⟨q,k,hc,rfl⟩|⟨w,hc,hf,rfl⟩|⟨v,hc,rfl⟩|⟨e,hc,rfl⟩ <;>
  rcases i with _ | i <;>
  simp_all [nS7, nS8, nC8, flagsInit, one_zero, one_succ, upd_one, upd_self, oneB_zero, oneB_succ, upd_oneB, filler] <;>
  (try obtain ⟨rfl, rfl, rfl⟩ := hc) <;>
  (try obtain ⟨rfl, rfl⟩ := hc) <;>
  (try subst_vars) <;>
  simp_all [nS7, nS8, nC8, flagsInit, one_zero, one_succ, upd_one, upd_self, oneB_zero, oneB_succ, upd_oneB, filler]

theorem next_nB2 {c' : Cfg} (h : Step nB2 c') : c' = eB3 ∨ c' = eB4 := by
  obtain ⟨i, H⟩ := step_inv h
  rcases H with ⟨w,hc,hf,rfl⟩|⟨w,hc,hf,rfl⟩|⟨w,p,hc,ha,hp,rfl⟩|⟨w,hc,ha,rfl⟩|⟨w,p,hc,hs,rfl⟩|
    ⟨w,p,e,hc,hs,rfl⟩|⟨p,w,hc,rfl⟩|⟨p,w,hc,rfl⟩|⟨p,q,k,hc,rfl⟩|⟨p,q,k,hc,rfl⟩|⟨p,q,k,hc,rfl⟩|
    ⟨p,w,hc,hf,rfl⟩|⟨p,v,hc,rfl⟩|⟨p,e,hc,rfl⟩|⟨p,v,hc,rfl⟩|⟨p,v,hc,rfl⟩|⟨p,e,hc,rfl⟩|
    ⟨p,e,hc,rfl⟩|⟨q,k,hc,rfl⟩|⟨q,k,hc,rfl⟩|⟨q,k,hc,rfl⟩|⟨w,hc,hf,rfl⟩|⟨v,hc,rfl⟩|⟨e,hc,rfl⟩ <;>
  rcases i with _ | i <;>
  simp_all [nB2, eB3, eB4, flagsInit, one_zero, one_succ, upd_one, upd_self, oneB_zero, oneB_succ, upd_oneB, filler] <;>
  (try obtain ⟨rfl, rfl, rfl⟩ := hc) <;>
  (try obtain ⟨rfl, rfl⟩ := hc) <;>
  (try subst_vars) <;>
  simp_all [nB2, eB3, eB4, flagsInit, one_zero, one_succ, upd_one, upd_self, oneB_zero, oneB_succ, upd_oneB, filler]

theorem next_nF6 {c' : Cfg} (h : Step nF6 c') : c' = nF7 ∨ c' = nF8 := by
  obtain ⟨i, H⟩ := step_inv h
  rcases H with ⟨w,hc,hf,rfl⟩|⟨w,hc,hf,rfl⟩|⟨w,p,hc,ha,hp,rfl⟩|⟨w,hc,ha,rfl⟩|⟨w,p,hc,hs,rfl⟩|
    ⟨w,p,e,hc,hs,rfl⟩|⟨p,w,hc,rfl⟩|⟨p,w,hc,rfl⟩|⟨p,q,k,hc,rfl⟩|⟨p,q,k,hc,rfl⟩|⟨p,q,k,hc,rfl⟩|
    ⟨p,w,hc,hf,rfl⟩|⟨p,v,hc,rfl⟩|⟨p,e,hc,rfl⟩|⟨p,v,hc,rfl⟩|⟨p,v,hc,rfl⟩|⟨p,e,hc,rfl⟩|
    ⟨p,e,hc,rfl⟩|⟨q,k,hc,rfl⟩|⟨q,k,hc,rfl⟩|⟨q,k,hc,rfl⟩|⟨w,hc,hf,rfl⟩|⟨v,hc,rfl⟩|⟨e,hc,rfl⟩ <;>
  rcases i with _ | i <;>
  simp_all [nF6, nF7, nF8, flagsInit, one_zero, one_succ, upd_one, upd_self, oneB_zero, oneB_succ, upd_oneB, filler] <;>
  (try obtain ⟨rfl, rfl, rfl⟩ := hc) <;>
  (try obtain ⟨rfl, rfl⟩ := hc) <;>
  (try subst_vars) <;>
  simp_all [nF6, nF7, nF8, flagsInit, one_zero, one_succ, upd_one, upd_self, oneB_zero, oneB_succ, upd_oneB, filler]

theorem next_nC8 {c' : Cfg} (h : Step nC8 c') : c' = nC9 ∨ c' = nC10 := by
  obtain ⟨i, H⟩ := step_inv h
  rcases H with ⟨w,hc,hf,rfl⟩|⟨w,hc,hf,rfl⟩|⟨w,p,hc,ha,hp,rfl⟩|⟨w,hc,ha,rfl⟩|⟨w,p,hc,hs,rfl⟩|
    ⟨w,p,e,hc,hs,rfl⟩|⟨p,w,hc,rfl⟩|⟨p,w,hc,rfl⟩|⟨p,q,k,hc,rfl⟩|⟨p,q,k,hc,rfl⟩|⟨p,q,k,hc,rfl⟩|
    ⟨p,w,hc,hf,rfl⟩|⟨p,v,hc,rfl⟩|⟨p,e,hc,rfl⟩|⟨p,v,hc,rfl⟩|⟨p,v,hc,rfl⟩|⟨p,e,hc,rfl⟩|
    ⟨p,e,hc,rfl⟩|⟨q,k,hc,rfl⟩|⟨q,k,hc,rfl⟩|⟨q,k,hc,rfl⟩|⟨w,hc,hf,rfl⟩|⟨v,hc,rfl⟩|⟨e,hc,rfl⟩ <;>
  rcases i with _ | i <;>
  simp_all [nC8, nC9, nC10, flagsInit, one_zero, one_succ, upd_one, upd_self, oneB_zero, oneB_succ, upd_oneB, filler] <;>
  (try obtain ⟨rfl, rfl, rfl⟩ := hc) <;>
  (try obtain ⟨rfl, rfl⟩ := hc) <;>
  (try subst_vars) <;>
  simp_all [nC8, nC9, nC10, flagsInit, one_zero, one_succ, upd_one, upd_self, oneB_zero, oneB_succ, upd_oneB, filler]

theorem next_nS8 {c' : Cfg} (h : Step nS8 c') : False :=
  no_step_of_inert (fun i => by cases i <;> simp [nS8, one, inert, filler]) h

theorem next_nF7 {c' : Cfg} (h : Step nF7 c') : False :=
  no_step_of_inert (fun i => by cases i <;> simp [nF7, one, inert, filler]) h

theorem next_nF8 {c' : Cfg} (h : Step nF8 c') : False :=
  no_step_of_inert (fun i => by cases i <;> simp [nF8, one, inert, filler]) h

theorem next_nC9 {c' : Cfg} (h : Step nC9 c') : False :=
  no_step_of_inert (fun i => by cases i <;> simp [nC9, one, inert, filler]) h

theorem next_nC10 {c' : Cfg} (h : Step nC10 c') : False :=
  no_step_of_inert (fun i => by cases i <;> simp [nC10, one, inert, filler]) h

theorem reach_nestedWork {c : Cfg} (h : Steps nS0 c) :
    c = nS0 ∨ c = nS1 ∨ c = nS2 ∨ c = nS3 ∨ c = nS4 ∨ c = nS5 ∨ c = nS6 ∨
    c = nS7 ∨ c = nS8 ∨ c = nB2 ∨ c = eB3 ∨ c = eB4 ∨ c = nF6 ∨ c = nF7 ∨
    c = nF8 ∨ c = nC8 ∨ c = nC9 ∨ c = nC10 := by
  induction h with
  | refl => exact Or.inl rfl
  | tail _ hstep ih =>
      rcases ih with rfl|rfl|rfl|rfl|rfl|rfl|rfl|rfl|rfl|rfl|rfl|rfl|rfl|rfl|rfl|rfl|rfl|rfl
      · rw [next_nS0 hstep]; simp
      · rw [next_nS1 hstep]; simp
      · rcases next_nS2 hstep with rfl|rfl <;> simp
      · rw [next_nS3 hstep]; simp
      · rw [next_nS4 hstep]; simp
      · rcases next_nS5 hstep with rfl|rfl <;> simp
      · rw [next_nS6 hstep]; simp
      · rcases next_nS7 hstep with rfl|rfl <;> simp
      · exact (next_nS8 hstep).elim
      · rcases next_nB2 hstep with rfl|rfl <;> simp
      · exact (next_eB3 hstep).elim
      · exact (next_eB4 hstep).elim
      · rcases next_nF6 hstep with rfl|rfl <;> simp
      · exact (next_nF7 hstep).elim
      · exact (next_nF8 hstep).elim
      · rcases next_nC8 hstep with rfl|rfl <;> simp
      · exact (next_nC9 hstep).elim
      · exact (next_nC10 hstep).elim

/-! ## General single-step inversion facts -/

/-- If a step changed chain `i`, then the step was taken by chain `i`. -/
theorem stepAt_of_changed {c c' : Cfg} {i : Nat} (h : Step c c')
    (hne : c'.chains i ≠ c.chains i) : StepAt c c' i := by
  obtain ⟨j, H⟩ := step_inv h
  by_cases hji : j = i
  · subst hji; exact H
  · exfalso
    apply hne
    have hij : i ≠ j := fun hh => hji hh.symm
    rcases H with ⟨w,hc,hf,rfl⟩|⟨w,hc,hf,rfl⟩|⟨w,p,hc,ha,hp,rfl⟩|⟨w,hc,ha,rfl⟩|⟨w,p,hc,hs,rfl⟩|
    ⟨w,p,e,hc,hs,rfl⟩|⟨p,w,hc,rfl⟩|⟨p,w,hc,rfl⟩|⟨p,q,k,hc,rfl⟩|⟨p,q,k,hc,rfl⟩|⟨p,q,k,hc,rfl⟩|
    ⟨p,w,hc,hf,rfl⟩|⟨p,v,hc,rfl⟩|⟨p,e,hc,rfl⟩|⟨p,v,hc,rfl⟩|⟨p,v,hc,rfl⟩|⟨p,e,hc,rfl⟩|
    ⟨p,e,hc,rfl⟩|⟨q,k,hc,rfl⟩|⟨q,k,hc,rfl⟩|⟨q,k,hc,rfl⟩|⟨w,hc,hf,rfl⟩|⟨v,hc,rfl⟩|⟨e,hc,rfl⟩ <;>
    simp [upd_apply, hij]

/-- Reentrant entry (claim C2 support): calling `doInTransaction` with the
chain's `cls` flag already set runs the work inline — the chain moves to
`inlineRun`, nothing is added to the trace or the log, the slot and the flag
are untouched. -/
theorem reentrant_entry {c c' : Cfg} {i : Nat} {w : Work}
    (hc0 : c.chains i = .start w) (hf0 : c.isInTransaction i = true)
    (h : Step c c') (hne : c'.chains i ≠ c.chains i) :
    c'.chains i = .inlineRun w ∧ c'.trace = c.trace ∧ c'.active = c.active ∧
      c'.logs = c.logs ∧ c'.isInTransaction i = true := by
  have H := stepAt_of_changed h hne
  rcases H with ⟨w1,hc,hf,rfl⟩|⟨w1,hc,hf,rfl⟩|⟨w1,p1,hc,ha,hp1,rfl⟩|⟨w1,hc,ha,rfl⟩|⟨w1,p1,hc,hs,rfl⟩|
    ⟨w1,p1,e1,hc,hs,rfl⟩|⟨p1,w1,hc,rfl⟩|⟨p1,w1,hc,rfl⟩|⟨p1,q1,k1,hc,rfl⟩|⟨p1,q1,k1,hc,rfl⟩|⟨p1,q1,k1,hc,rfl⟩|
    ⟨p1,w1,hc,hf,rfl⟩|⟨p1,v1,hc,rfl⟩|⟨p1,e1,hc,rfl⟩|⟨p1,v1,hc,rfl⟩|⟨p1,v1,hc,rfl⟩|⟨p1,e1,hc,rfl⟩|
    ⟨p1,e1,hc,rfl⟩|⟨q1,k1,hc,rfl⟩|⟨q1,k1,hc,rfl⟩|⟨q1,k1,hc,rfl⟩|⟨w1,hc,hf,rfl⟩|⟨v1,hc,rfl⟩|⟨e1,hc,rfl⟩ <;>
  simp_all [upd_self]

/-- Inline work returning a value: the value is returned unchanged, with no
database event. -/
theorem inline_val_result {c c' : Cfg} {i : Nat} {v : Int}
    (hc0 : c.chains i = .inlineRun (.val v))
    (h : Step c c') (hne : c'.chains i ≠ c.chains i) :
    c'.chains i = .done (.ok v) ∧ c'.trace = c.trace ∧ c'.active = c.active ∧
      c'.logs = c.logs := by
  have H := stepAt_of_changed h hne
  rcases H with ⟨w1,hc,hf,rfl⟩|⟨w1,hc,hf,rfl⟩|⟨w1,p1,hc,ha,hp1,rfl⟩|⟨w1,hc,ha,rfl⟩|⟨w1,p1,hc,hs,rfl⟩|
    ⟨w1,p1,e1,hc,hs,rfl⟩|⟨p1,w1,hc,rfl⟩|⟨p1,w1,hc,rfl⟩|⟨p1,q1,k1,hc,rfl⟩|⟨p1,q1,k1,hc,rfl⟩|⟨p1,q1,k1,hc,rfl⟩|
    ⟨p1,w1,hc,hf,rfl⟩|⟨p1,v1,hc,rfl⟩|⟨p1,e1,hc,rfl⟩|⟨p1,v1,hc,rfl⟩|⟨p1,v1,hc,rfl⟩|⟨p1,e1,hc,rfl⟩|
    ⟨p1,e1,hc,rfl⟩|⟨q1,k1,hc,rfl⟩|⟨q1,k1,hc,rfl⟩|⟨q1,k1,hc,rfl⟩|⟨w1,hc,hf,rfl⟩|⟨v1,hc,rfl⟩|⟨e1,hc,rfl⟩ <;>
  simp_all [upd_self]

/-- Inline work throwing: the error propagates unchanged, with no database
event. -/
theorem inline_err_result {c c' : Cfg} {i : Nat} {e : Nat}
    (hc0 : c.chains i = .inlineRun (.err e))
    (h : Step c c') (hne : c'.chains i ≠ c.chains i) :
    c'.chains i = .done (.error (.raw e)) ∧ c'.trace = c.trace ∧
      c'.active = c.active ∧ c'.logs = c.logs := by
  have H := stepAt_of_changed h hne
  rcases H with ⟨w1,hc,hf,rfl⟩|⟨w1,hc,hf,rfl⟩|⟨w1,p1,hc,ha,hp1,rfl⟩|⟨w1,hc,ha,rfl⟩|⟨w1,p1,hc,hs,rfl⟩|
    ⟨w1,p1,e1,hc,hs,rfl⟩|⟨p1,w1,hc,rfl⟩|⟨p1,w1,hc,rfl⟩|⟨p1,q1,k1,hc,rfl⟩|⟨p1,q1,k1,hc,rfl⟩|⟨p1,q1,k1,hc,rfl⟩|
    ⟨p1,w1,hc,hf,rfl⟩|⟨p1,v1,hc,rfl⟩|⟨p1,e1,hc,rfl⟩|⟨p1,v1,hc,rfl⟩|⟨p1,v1,hc,rfl⟩|⟨p1,e1,hc,rfl⟩|
    ⟨p1,e1,hc,rfl⟩|⟨q1,k1,hc,rfl⟩|⟨q1,k1,hc,rfl⟩|⟨q1,k1,hc,rfl⟩|⟨w1,hc,hf,rfl⟩|⟨v1,hc,rfl⟩|⟨e1,hc,rfl⟩ <;>
  simp_all [upd_self]

/-- A nested `doInTransaction` call inside an owned transaction joins it: the
work unwraps in place and no `BEGIN`, `COMMIT` or any other database event is
issued. -/
theorem nested_join_inline {c c' : Cfg} {i p : Nat} {w : Work}
    (hc0 : c.chains i = .ownRun p (.nested w))
    (h : Step c c') (hne : c'.chains i ≠ c.chains i) :
    c'.chains i = .ownRun p w ∧ c'.trace = c.trace ∧ c'.active = c.active ∧
      c'.logs = c.logs := by
  have H := stepAt_of_changed h hne
  rcases H with ⟨w1,hc,hf,rfl⟩|⟨w1,hc,hf,rfl⟩|⟨w1,p1,hc,ha,hp1,rfl⟩|⟨w1,hc,ha,rfl⟩|⟨w1,p1,hc,hs,rfl⟩|
    ⟨w1,p1,e1,hc,hs,rfl⟩|⟨p1,w1,hc,rfl⟩|⟨p1,w1,hc,rfl⟩|⟨p1,q1,k1,hc,rfl⟩|⟨p1,q1,k1,hc,rfl⟩|⟨p1,q1,k1,hc,rfl⟩|
    ⟨p1,w1,hc,hf,rfl⟩|⟨p1,v1,hc,rfl⟩|⟨p1,e1,hc,rfl⟩|⟨p1,v1,hc,rfl⟩|⟨p1,v1,hc,rfl⟩|⟨p1,e1,hc,rfl⟩|
    ⟨p1,e1,hc,rfl⟩|⟨q1,k1,hc,rfl⟩|⟨q1,k1,hc,rfl⟩|⟨q1,k1,hc,rfl⟩|⟨w1,hc,hf,rfl⟩|⟨v1,hc,rfl⟩|⟨e1,hc,rfl⟩ <;>
  simp_all [upd_self]

/-- A chain waiting on a promise that was rejected with `e` can only resume
by re-throwing `e` out of its own `doInTransaction` call: it never reaches
`BEGIN`. -/
theorem waiting_rejected {c c' : Cfg} {i p : Nat} {w : Work} {e : TErr}
    (hc0 : c.chains i = .waiting p w) (hs0 : c.settled p = some (some e))
    (h : Step c c') (hne : c'.chains i ≠ c.chains i) :
    c'.chains i = .done (.error e) ∧ c'.trace = c.trace ∧
      c'.active = c.active := by
  have H := stepAt_of_changed h hne
  rcases H with ⟨w1,hc,hf,rfl⟩|⟨w1,hc,hf,rfl⟩|⟨w1,p1,hc,ha,hp1,rfl⟩|⟨w1,hc,ha,rfl⟩|⟨w1,p1,hc,hs,rfl⟩|
    ⟨w1,p1,e1,hc,hs,rfl⟩|⟨p1,w1,hc,rfl⟩|⟨p1,w1,hc,rfl⟩|⟨p1,q1,k1,hc,rfl⟩|⟨p1,q1,k1,hc,rfl⟩|⟨p1,q1,k1,hc,rfl⟩|
    ⟨p1,w1,hc,hf,rfl⟩|⟨p1,v1,hc,rfl⟩|⟨p1,e1,hc,rfl⟩|⟨p1,v1,hc,rfl⟩|⟨p1,v1,hc,rfl⟩|⟨p1,e1,hc,rfl⟩|
    ⟨p1,e1,hc,rfl⟩|⟨q1,k1,hc,rfl⟩|⟨q1,k1,hc,rfl⟩|⟨q1,k1,hc,rfl⟩|⟨w1,hc,hf,rfl⟩|⟨v1,hc,rfl⟩|⟨e1,hc,rfl⟩ <;>
  simp_all [upd_self]

/-- From `ownRollback` the only transitions are: `ROLLBACK` succeeds — the
slot is released, the promise is rejected with the caught error and the
caller observes it; or `ROLLBACK` fails — the chain is stuck, the slot stays
as it was and the rollback failure is logged, with no promise settled. -/
theorem rollback_release_or_stick {c c' : Cfg} {i p : Nat} {e : TErr}
    (hc0 : c.chains i = .ownRollback p e)
    (h : Step c c') (hne : c'.chains i ≠ c.chains i) :
    (c'.chains i = .done (.error e) ∧ c'.active = false ∧
      c'.settled p = some (some e) ∧ c'.isInTransaction i = false) ∨
    (c'.chains i = .stuckOuter p ∧ c'.active = c.active ∧
      c'.settled = c.settled ∧ c'.isInTransaction i = false ∧
      c'.logs = c.logs ++ [(i, .queryFail "ROLLBACK")]) := by
  have H := stepAt_of_changed h hne
  rcases H with ⟨w1,hc,hf,rfl⟩|⟨w1,hc,hf,rfl⟩|⟨w1,p1,hc,ha,hp1,rfl⟩|⟨w1,hc,ha,rfl⟩|⟨w1,p1,hc,hs,rfl⟩|
    ⟨w1,p1,e1,hc,hs,rfl⟩|⟨p1,w1,hc,rfl⟩|⟨p1,w1,hc,rfl⟩|⟨p1,q1,k1,hc,rfl⟩|⟨p1,q1,k1,hc,rfl⟩|⟨p1,q1,k1,hc,rfl⟩|
    ⟨p1,w1,hc,hf,rfl⟩|⟨p1,v1,hc,rfl⟩|⟨p1,e1,hc,rfl⟩|⟨p1,v1,hc,rfl⟩|⟨p1,v1,hc,rfl⟩|⟨p1,e1,hc,rfl⟩|
    ⟨p1,e1,hc,rfl⟩|⟨q1,k1,hc,rfl⟩|⟨q1,k1,hc,rfl⟩|⟨q1,k1,hc,rfl⟩|⟨w1,hc,hf,rfl⟩|⟨v1,hc,rfl⟩|⟨e1,hc,rfl⟩ <;>
  simp_all [upd_self]

/-- Once a chain is stuck after a failed `ROLLBACK`, it is stuck in every
later configuration and `transactionActive` remains `true` forever: the slot
is never released and every future `doInTransaction` caller blocks. -/
theorem stuck_forever {c : Cfg} {i p : Nat} (hI : Inv c)
    (hc0 : c.chains i = .stuckOuter p) (hact : c.active = true)
    {c' : Cfg} (h : Steps c c') :
    c'.chains i = .stuckOuter p ∧ c'.active = true := by
  induction h with
  | refl => exact ⟨hc0, hact⟩
  | tail hs hstep ih =>
      obtain ⟨hcb, hab⟩ := ih
      have hIb := inv_steps hs hI
      obtain ⟨j, H⟩ := step_inv hstep
      by_cases hji : j = i
      · subst hji
        exfalso
        rcases H with ⟨w,hc,hf,rfl⟩|⟨w,hc,hf,rfl⟩|⟨w,p,hc,ha,hp,rfl⟩|⟨w,hc,ha,rfl⟩|⟨w,p,hc,hs,rfl⟩|
        ⟨w,p,e,hc,hs,rfl⟩|⟨p,w,hc,rfl⟩|⟨p,w,hc,rfl⟩|⟨p,q,k,hc,rfl⟩|⟨p,q,k,hc,rfl⟩|⟨p,q,k,hc,rfl⟩|
        ⟨p,w,hc,hf,rfl⟩|⟨p,v,hc,rfl⟩|⟨p,e,hc,rfl⟩|⟨p,v,hc,rfl⟩|⟨p,v,hc,rfl⟩|⟨p,e,hc,rfl⟩|
        ⟨p,e,hc,rfl⟩|⟨q,k,hc,rfl⟩|⟨q,k,hc,rfl⟩|⟨q,k,hc,rfl⟩|⟨w,hc,hf,rfl⟩|⟨v,hc,rfl⟩|⟨e,hc,rfl⟩ <;>
        (rw [hcb] at hc; simp at hc)
      · have hij : i ≠ j := fun hh => hji hh.symm
        rcases H with ⟨w,hc,hf,rfl⟩|⟨w,hc,hf,rfl⟩|⟨w,p,hc,ha,hp,rfl⟩|⟨w,hc,ha,rfl⟩|⟨w,p,hc,hs,rfl⟩|
        ⟨w,p,e,hc,hs,rfl⟩|⟨p,w,hc,rfl⟩|⟨p,w,hc,rfl⟩|⟨p,q,k,hc,rfl⟩|⟨p,q,k,hc,rfl⟩|⟨p,q,k,hc,rfl⟩|
        ⟨p,w,hc,hf,rfl⟩|⟨p,v,hc,rfl⟩|⟨p,e,hc,rfl⟩|⟨p,v,hc,rfl⟩|⟨p,v,hc,rfl⟩|⟨p,e,hc,rfl⟩|
        ⟨p,e,hc,rfl⟩|⟨q,k,hc,rfl⟩|⟨q,k,hc,rfl⟩|⟨q,k,hc,rfl⟩|⟨w,hc,hf,rfl⟩|⟨v,hc,rfl⟩|⟨e,hc,rfl⟩ <;>
        first
        | exact ⟨by simp [upd_apply, hij, hcb], hab⟩
        | exact ⟨by simp [upd_apply, hij, hcb], rfl⟩
        | exact absurd (hIb.uniq j i (by rw [hc]; rfl) (by rw [hcb]; rfl)) hji

/-- `goodFrom` over an append. -/
theorem goodFrom_app (o a : Bool) (l1 l2 : List Ev) :
    goodFrom o a (l1 ++ l2) =
      (goodFrom o a l1 && goodFrom (l1.foldl sOpen o) (l1.foldl sAct a) l2) := by
  induction l1 generalizing o a with
  | nil => simp [goodFrom]
  | cons x tl ih =>
      simp only [List.cons_append, goodFrom, List.foldl_cons, List.append_eq, ih,
        Bool.and_assoc]

/-- If the issuance scan dropped from open to closed over a list, the list
contains a `COMMIT` or `ROLLBACK` issuance. -/
theorem open_dropped {l : List Ev} (h : l.foldl sOpen true = false) :
    ∃ e ∈ l, (∃ a, e = Ev.commit a) ∨ (∃ a, e = Ev.rollback a) := by
  induction l with
  | nil => simp [List.foldl] at h
  | cons x tl ih =>
      cases x with
      | commit a => exact ⟨.commit a, List.mem_cons_self _ _, Or.inl ⟨a, rfl⟩⟩
      | rollback a => exact ⟨.rollback a, List.mem_cons_self _ _, Or.inr ⟨a, rfl⟩⟩
      | begin a =>
          obtain ⟨e, he, hp⟩ := ih h
          exact ⟨e, List.mem_cons_of_mem _ he, hp⟩
      | stmt a q =>
          obtain ⟨e, he, hp⟩ := ih h
          exact ⟨e, List.mem_cons_of_mem _ he, hp⟩
      | commitDone a =>
          obtain ⟨e, he, hp⟩ := ih h
          exact ⟨e, List.mem_cons_of_mem _ he, hp⟩
      | rollbackDone a =>
          obtain ⟨e, he, hp⟩ := ih h
          exact ⟨e, List.mem_cons_of_mem _ he, hp⟩

/-- If the completion scan dropped from open to closed over a list, the list
contains a successful `COMMIT` or `ROLLBACK` completion. -/
theorem act_dropped {l : List Ev} (h : l.foldl sAct true = false) :
    ∃ e ∈ l, (∃ a, e = Ev.commitDone a) ∨ (∃ a, e = Ev.rollbackDone a) := by
  induction l with
  | nil => simp [List.foldl] at h
  | cons x tl ih =>
      cases x with
      | commitDone a => exact ⟨.commitDone a, List.mem_cons_self _ _, Or.inl ⟨a, rfl⟩⟩
      | rollbackDone a => exact ⟨.rollbackDone a, List.mem_cons_self _ _, Or.inr ⟨a, rfl⟩⟩
      | begin a =>
          obtain ⟨e, he, hp⟩ := ih h
          exact ⟨e, List.mem_cons_of_mem _ he, hp⟩
      | stmt a q =>
          obtain ⟨e, he, hp⟩ := ih h
          exact ⟨e, List.mem_cons_of_mem _ he, hp⟩
      | commit a =>
          obtain ⟨e, he, hp⟩ := ih h
          exact ⟨e, List.mem_cons_of_mem _ he, hp⟩
      | rollback a =>
          obtain ⟨e, he, hp⟩ := ih h
          exact ⟨e, List.mem_cons_of_mem _ he, hp⟩

/-- In a good trace, between any two `begin`s there is both an intervening
`COMMIT`/`ROLLBACK` issuance and an intervening successful
`COMMIT`/`ROLLBACK` completion. -/
theorem begins_separated {tr1 tr2 tr3 : List Ev} {i j : Nat}
    (hg : goodFrom false false (tr1 ++ .begin i :: (tr2 ++ .begin j :: tr3)) = true) :
    (∃ e ∈ tr2, (∃ a, e = Ev.commit a) ∨ (∃ a, e = Ev.rollback a)) ∧
    (∃ e ∈ tr2, (∃ a, e = Ev.commitDone a) ∨ (∃ a, e = Ev.rollbackDone a)) := by
  rw [goodFrom_app, Bool.and_eq_true] at hg
  obtain ⟨-, h2⟩ := hg
  rw [show goodFrom (List.foldl sOpen false tr1) (List.foldl sAct false tr1)
        (Ev.begin i :: (tr2 ++ Ev.begin j :: tr3)) =
      (evOk (List.foldl sOpen false tr1) (List.foldl sAct false tr1) (.begin i) &&
        goodFrom true true (tr2 ++ Ev.begin j :: tr3)) from rfl,
    Bool.and_eq_true] at h2
  obtain ⟨-, h3⟩ := h2
  rw [goodFrom_app, Bool.and_eq_true] at h3
  obtain ⟨-, h4⟩ := h3
  rw [show goodFrom (List.foldl sOpen true tr2) (List.foldl sAct true tr2)
        (Ev.begin j :: tr3) =
      ((!(List.foldl sOpen true tr2) && !(List.foldl sAct true tr2)) &&
        goodFrom true true tr3) from rfl, Bool.and_eq_true, Bool.and_eq_true] at h4
  obtain ⟨⟨ho, ha⟩, -⟩ := h4
  rw [Bool.not_eq_true'] at ho ha
  exact ⟨open_dropped ho, act_dropped ha⟩

/-! ## Concrete executions -/

/-- Error-work run, rollback succeeding: states accumulated step by step. -/
def rA1 : Cfg := { eS0 with chains := upd eS0.chains 0 (.looping (.err 5)) }

def rA2 : Cfg :=
  { rA1 with
    active := true
    cur := some 0
    nextP := 1
    isInTransaction := upd rA1.isInTransaction 0 true
    chains := upd rA1.chains 0 (.ownBegin 0 (.err 5))
    trace := rA1.trace ++ [.begin 0] }

def rA3 : Cfg := { rA2 with chains := upd rA2.chains 0 (.ownRun 0 (.err 5)) }

def rA4 : Cfg :=
  { rA3 with
    chains := upd rA3.chains 0 (.ownRollback 0 (.raw 5))
    trace := rA3.trace ++ [.rollback 0]
    logs := rA3.logs ++ [(0, .txnFail (.raw 5))] }

def rA5 : Cfg :=
  { rA4 with
    active := false
    settled := upd rA4.settled 0 (some (some (.raw 5)))
    isInTransaction := upd rA4.isInTransaction 0 false
    chains := upd rA4.chains 0 (.done (.error (.raw 5)))
    trace := rA4.trace ++ [.rollbackDone 0] }

def rA6 : Cfg :=
  { rA4 with
    isInTransaction := upd rA4.isInTransaction 0 false
    chains := upd rA4.chains 0 (.stuckOuter 0)
    logs := rA4.logs ++ [(0, .queryFail "ROLLBACK")] }

theorem steps_rA4 : Steps eS0 rA4 :=
  .tail (.tail (.tail (.tail (.refl eS0)
    (.enter eS0 0 (.err 5) rfl rfl))
    (.loopAcquire rA1 0 (.err 5) rfl rfl))
    (.beginOk rA2 0 0 (.err 5) rfl))
    (.workErr rA3 0 0 5 rfl)

theorem steps_rA5 : Steps eS0 rA5 :=
  .tail steps_rA4 (.rollbackOk rA4 0 0 (.raw 5) rfl)

theorem steps_rA6 : Steps eS0 rA6 :=
  .tail steps_rA4 (.rollbackFail rA4 0 0 (.raw 5) rfl)

theorem rA6_inert : ∀ i, inert (rA6.chains i) = true := by
  intro i
  rcases i with _ | n
  · rfl
  · simp [rA6, rA4, rA3, rA2, rA1, eS0, upd, initCfg, initChains, inert, filler]

/-- Two chains, both committing: A runs first, B waits, then B runs. -/
def rP0 : Cfg := initCfg [.val 1, .val 2]

def rP1 : Cfg := { rP0 with chains := upd rP0.chains 0 (.looping (.val 1)) }

def rP2 : Cfg :=
  { rP1 with
    active := true
    cur := some 0
    nextP := 1
    isInTransaction := upd rP1.isInTransaction 0 true
    chains := upd rP1.chains 0 (.ownBegin 0 (.val 1))
    trace := rP1.trace ++ [.begin 0] }

def rP3 : Cfg := { rP2 with chains := upd rP2.chains 1 (.looping (.val 2)) }

def rP4 : Cfg := { rP3 with chains := upd rP3.chains 1 (.waiting 0 (.val 2)) }

def rP5 : Cfg := { rP4 with chains := upd rP4.chains 0 (.ownRun 0 (.val 1)) }

def rP6 : Cfg :=
  { rP5 with
    chains := upd rP5.chains 0 (.ownCommit 0 1)
    trace := rP5.trace ++ [.commit 0] }

def rP7 : Cfg :=
  { rP6 with
    active := false
    settled := upd rP6.settled 0 (some none)
    isInTransaction := upd rP6.isInTransaction 0 false
    chains := upd rP6.chains 0 (.done (.ok 1))
    trace := rP6.trace ++ [.commitDone 0] }

def rP8 : Cfg := { rP7 with chains := upd rP7.chains 1 (.looping (.val 2)) }

def rP9 : Cfg :=
  { rP8 with
    active := true
    cur := some 1
    nextP := 2
    isInTransaction := upd rP8.isInTransaction 1 true
    chains := upd rP8.chains 1 (.ownBegin 1 (.val 2))
    trace := rP8.trace ++ [.begin 1] }

def rP10 : Cfg := { rP9 with chains := upd rP9.chains 1 (.ownRun 1 (.val 2)) }

def rP11 : Cfg :=
  { rP10 with
    chains := upd rP10.chains 1 (.ownCommit 1 2)
    trace := rP10.trace ++ [.commit 1] }

def rP12 : Cfg :=
  { rP11 with
    active := false
    settled := upd rP11.settled 1 (some none)
    isInTransaction := upd rP11.isInTransaction 1 false
    chains := upd rP11.chains 1 (.done (.ok 2))
    trace := rP11.trace ++ [.commitDone 1] }

theorem steps_rP12 : Steps rP0 rP12 :=
  .tail (.tail (.tail (.tail (.tail (.tail (.tail (.tail (.tail (.tail (.tail
    (.tail (.refl rP0)
    (.enter rP0 0 (.val 1) rfl rfl))
    (.loopAcquire rP1 0 (.val 1) rfl rfl))
    (.enter rP2 1 (.val 2) rfl rfl))
    (.loopWait rP3 1 (.val 2) 0 rfl rfl rfl))
    (.beginOk rP4 0 0 (.val 1) rfl))
    (.workVal rP5 0 0 1 rfl))
    (.commitOk rP6 0 0 1 rfl))
    (.wakeOk rP7 1 (.val 2) 0 rfl rfl))
    (.loopAcquire rP8 1 (.val 2) rfl rfl))
    (.beginOk rP9 1 1 (.val 2) rfl))
    (.workVal rP10 1 1 2 rfl))
    (.commitOk rP11 1 1 2 rfl)

/-- Two chains, A's work throwing while B waits: A's rejection is re-thrown
out of B's `doInTransaction`, so B never begins. -/
def rQ0 : Cfg := initCfg [.err 5, .val 7]

def rQ1 : Cfg := { rQ0 with chains := upd rQ0.chains 0 (.looping (.err 5)) }

def rQ2 : Cfg :=
  { rQ1 with
    active := true
    cur := some 0
    nextP := 1
    isInTransaction := upd rQ1.isInTransaction 0 true
    chains := upd rQ1.chains 0 (.ownBegin 0 (.err 5))
    trace := rQ1.trace ++ [.begin 0] }

def rQ3 : Cfg := { rQ2 with chains := upd rQ2.chains 1 (.looping (.val 7)) }

def rQ4 : Cfg := { rQ3 with chains := upd rQ3.chains 1 (.waiting 0 (.val 7)) }

def rQ5 : Cfg := { rQ4 with chains := upd rQ4.chains 0 (.ownRun 0 (.err 5)) }

def rQ6 : Cfg :=
  { rQ5 with
    chains := upd rQ5.chains 0 (.ownRollback 0 (.raw 5))
    trace := rQ5.trace ++ [.rollback 0]
    logs := rQ5.logs ++ [(0, .txnFail (.raw 5))] }

def rQ7 : Cfg :=
  { rQ6 with
    active := false
    settled := upd rQ6.settled 0 (some (some (.raw 5)))
    isInTransaction := upd rQ6.isInTransaction 0 false
    chains := upd rQ6.chains 0 (.done (.error (.raw 5)))
    trace := rQ6.trace ++ [.rollbackDone 0] }

def rQ8 : Cfg := { rQ7 with chains := upd rQ7.chains 1 (.done (.error (.raw 5))) }

theorem steps_rQ8 : Steps rQ0 rQ8 :=
  .tail (.tail (.tail (.tail (.tail (.tail (.tail (.tail (.refl rQ0)
    (.enter rQ0 0 (.err 5) rfl rfl))
    (.loopAcquire rQ1 0 (.err 5) rfl rfl))
    (.enter rQ2 1 (.val 7) rfl rfl))
    (.loopWait rQ3 1 (.val 7) 0 rfl rfl rfl))
    (.beginOk rQ4 0 0 (.err 5) rfl))
    (.workErr rQ5 0 0 5 rfl))
    (.rollbackOk rQ6 0 0 (.raw 5) rfl))
    (.wakeErr rQ7 1 (.val 7) 0 (.raw 5) rfl rfl)

theorem rQ8_inert : ∀ i, inert (rQ8.chains i) = true := by
  intro i
  rcases i with _ | n
  · rfl
  · rcases n with _ | m
    · rfl
    · simp [rQ8, rQ7, rQ6, rQ5, rQ4, rQ3, rQ2, rQ1, rQ0, upd, initCfg, initChains,
        inert, filler]

/-- Nested-work run ending in a successful commit. -/
def rN1 : Cfg := { nS0 with chains := upd nS0.chains 0 (.looping wNested) }

def rN2 : Cfg :=
  { rN1 with
    active := true
    cur := some 0
    nextP := 1
    isInTransaction := upd rN1.isInTransaction 0 true
    chains := upd rN1.chains 0 (.ownBegin 0 wNested)
    trace := rN1.trace ++ [.begin 0] }

def rN3 : Cfg := { rN2 with chains := upd rN2.chains 0 (.ownRun 0 wNested) }

def rN4 : Cfg := { rN3 with chains := upd rN3.chains 0 (.ownRun 0 (.stmt qIns (.val 7))) }

def rN5 : Cfg :=
  { rN4 with
    chains := upd rN4.chains 0 (.ownStmt 0 qIns (.val 7))
    trace := rN4.trace ++ [.stmt 0 qIns] }

def rN6 : Cfg := { rN5 with chains := upd rN5.chains 0 (.ownRun 0 (.val 7)) }

def rN7 : Cfg :=
  { rN6 with
    chains := upd rN6.chains 0 (.ownCommit 0 7)
    trace := rN6.trace ++ [.commit 0] }

def rN8 : Cfg :=
  { rN7 with
    active := false
    settled := upd rN7.settled 0 (some none)
    isInTransaction := upd rN7.isInTransaction 0 false
    chains := upd rN7.chains 0 (.done (.ok 7))
    trace := rN7.trace ++ [.commitDone 0] }

theorem steps_rN8 : Steps nS0 rN8 :=
  .tail (.tail (.tail (.tail (.tail (.tail (.tail (.tail (.refl nS0)
    (.enter nS0 0 wNested rfl rfl))
    (.loopAcquire rN1 0 wNested rfl rfl))
    (.beginOk rN2 0 0 wNested rfl))
    (.nestedJoin rN3 0 0 (.stmt qIns (.val 7)) rfl rfl))
    (.stmtIssue rN4 0 0 qIns (.val 7) rfl))
    (.stmtOk rN5 0 0 qIns (.val 7) rfl))
    (.workVal rN6 0 0 7 rfl))
    (.commitOk rN7 0 0 7 rfl)

/-- Value-work run ending in a commit failure followed by rollback: the
caller observes the wrapped COMMIT error. -/
def rV1 : Cfg := { vS0 with chains := upd vS0.chains 0 (.looping (.val 7)) }

def rV2 : Cfg :=
  { rV1 with
    active := true
    cur := some 0
    nextP := 1
    isInTransaction := upd rV1.isInTransaction 0 true
    chains := upd rV1.chains 0 (.ownBegin 0 (.val 7))
    trace := rV1.trace ++ [.begin 0] }

def rV3 : Cfg := { rV2 with chains := upd rV2.chains 0 (.ownRun 0 (.val 7)) }

def rV4 : Cfg :=
  { rV3 with
    chains := upd rV3.chains 0 (.ownCommit 0 7)
    trace := rV3.trace ++ [.commit 0] }

def rV5 : Cfg :=
  { rV4 with
    chains := upd rV4.chains 0 (.ownRollback 0 (.wrapped "COMMIT"))
    trace := rV4.trace ++ [.rollback 0]
    logs := rV4.logs ++ [(0, .queryFail "COMMIT"), (0, .txnFail (.wrapped "COMMIT"))] }

def rV6 : Cfg :=
  { rV5 with
    active := false
    settled := upd rV5.settled 0 (some (some (.wrapped "COMMIT")))
    isInTransaction := upd rV5.isInTransaction 0 false
    chains := upd rV5.chains 0 (.done (.error (.wrapped "COMMIT")))
    trace := rV5.trace ++ [.rollbackDone 0] }

theorem steps_rV6 : Steps vS0 rV6 :=
  .tail (.tail (.tail (.tail (.tail (.tail (.refl vS0)
    (.enter vS0 0 (.val 7) rfl rfl))
    (.loopAcquire rV1 0 (.val 7) rfl rfl))
    (.beginOk rV2 0 0 (.val 7) rfl))
    (.workVal rV3 0 0 7 rfl))
    (.commitFail rV4 0 0 7 rfl))
    (.rollbackOk rV5 0 0 (.wrapped "COMMIT") rfl)

/-- From `ownCommit` the only transitions are: `COMMIT` completes — the slot
is released, the promise resolves and the caller gets the work's value; or
`COMMIT` fails — the chain takes the same path as a work error: the failure
is logged twice (by `wrap` and by the `catch`) and `ROLLBACK` is issued. -/
theorem commit_ok_or_fail {c c' : Cfg} {i p : Nat} {v : Int}
    (hc0 : c.chains i = .ownCommit p v)
    (h : Step c c') (hne : c'.chains i ≠ c.chains i) :
    (c'.chains i = .done (.ok v) ∧ c'.active = false ∧
      c'.settled p = some none ∧ c'.isInTransaction i = false ∧
      c'.trace = c.trace ++ [.commitDone i]) ∨
    (c'.chains i = .ownRollback p (.wrapped "COMMIT") ∧ c'.active = c.active ∧
      c'.trace = c.trace ++ [.rollback i] ∧
      c'.logs = c.logs ++ [(i, .queryFail "COMMIT"), (i, .txnFail (.wrapped "COMMIT"))]) := by
  have H := stepAt_of_changed h hne
  rcases H with ⟨w1,hc,hf,rfl⟩|⟨w1,hc,hf,rfl⟩|⟨w1,p1,hc,ha,hp,rfl⟩|⟨w1,hc,ha,rfl⟩|⟨w1,p1,hc,hs,rfl⟩|
    ⟨w1,p1,e1,hc,hs,rfl⟩|⟨p1,w1,hc,rfl⟩|⟨p1,w1,hc,rfl⟩|⟨p1,q1,k1,hc,rfl⟩|⟨p1,q1,k1,hc,rfl⟩|⟨p1,q1,k1,hc,rfl⟩|
    ⟨p1,w1,hc,hf,rfl⟩|⟨p1,v1,hc,rfl⟩|⟨p1,e1,hc,rfl⟩|⟨p1,v1,hc,rfl⟩|⟨p1,v1,hc,rfl⟩|⟨p1,e1,hc,rfl⟩|
    ⟨p1,e1,hc,rfl⟩|⟨q1,k1,hc,rfl⟩|⟨q1,k1,hc,rfl⟩|⟨q1,k1,hc,rfl⟩|⟨w1,hc,hf,rfl⟩|⟨v1,hc,rfl⟩|⟨e1,hc,rfl⟩ <;>
  simp_all [upd_self]

/-! ## Query-executor lemmas -/

theorem objLookup_objSet (m : List (String × SVal)) (k k' : String) (v : SVal) :
    objLookup (objSet m k v) k' = if k' = k then some v else objLookup m k' := by
  induction m with
  | nil =>
      by_cases h : k = k'
      · subst h
        simp [objSet, objLookup]
      · rw [show objSet [] k v = [(k, v)] from rfl,
          show objLookup [(k, v)] k' = if k = k' then some v else none from rfl,
          if_neg h, show objLookup [] k' = none from rfl, if_neg (fun hh => h hh.symm)]
  | cons p rest ih =>
      obtain ⟨k0, v0⟩ := p
      by_cases h0 : k0 = k
      · subst h0
        rw [show objSet ((k0, v0) :: rest) k0 v = (k0, v) :: rest from by simp [objSet]]
        by_cases h : k0 = k'
        · subst h
          rw [show objLookup ((k0, v) :: rest) k0 = some v from by simp [objLookup],
            if_pos rfl]
        · rw [show objLookup ((k0, v) :: rest) k' = objLookup rest k' from by
              simp [objLookup, h],
            if_neg (fun hh => h hh.symm),
            show objLookup ((k0, v0) :: rest) k' = objLookup rest k' from by
              simp [objLookup, h]]
      · rw [show objSet ((k0, v0) :: rest) k v = (k0, v0) :: objSet rest k v from by
            simp [objSet, h0]]
        by_cases h1 : k0 = k'
        · subst h1
          rw [show objLookup ((k0, v0) :: objSet rest k v) k0 = some v0 from by
              simp [objLookup],
            if_neg h0,
            show objLookup ((k0, v0) :: rest) k0 = some v0 from by simp [objLookup]]
        · rw [show objLookup ((k0, v0) :: objSet rest k v) k' = objLookup (objSet rest k v) k'
              from by simp [objLookup, h1],
            ih,
            show objLookup ((k0, v0) :: rest) k' = objLookup rest k' from by
              simp [objLookup, h1]]

theorem find?_match_append {α : Type} (l1 l2 : List α) (p : α → Bool) :
    (l1 ++ l2).find? p =
      (match l1.find? p with
       | some a => some a
       | none => l2.find? p) := by
  induction l1 with
  | nil => simp
  | cons a tl ih =>
      by_cases h : p a
      · simp [List.find?_cons_of_pos _ h]
      · simp [List.find?_cons_of_neg _ h, ih]

theorem getMap_fold_lookup (rows : List Row) (m : List (String × SVal)) (k : String) :
    objLookup (rows.foldl (fun m r => objSet m (svalKey (firstVal r)) (secondVal r)) m) k =
      (match rows.reverse.find? (fun r => svalKey (firstVal r) == k) with
       | some r => some (secondVal r)
       | none => objLookup m k) := by
  induction rows generalizing m with
  | nil => simp
  | cons r rest ih =>
      simp only [List.foldl_cons, List.reverse_cons, ih, find?_match_append]
      cases hfind : rest.reverse.find? (fun r => svalKey (firstVal r) == k) with
      | some r' => rfl
      | none =>
          rw [objLookup_objSet]
          by_cases hp : svalKey (firstVal r) = k
          · rw [if_pos hp.symm, List.find?_cons_of_pos _ (by simp [hp])]
          · rw [if_neg (fun hh => hp hh.symm), List.find?_cons_of_neg _ (by simp [hp])]
            rfl

/-! ## Claim theorems -/

/-- C1: Mutual exclusion. For every list of concurrently-issued
`runInTransaction` works on distinct chains and every interleaving, the trace
never contains a second `BEGIN` without an intervening `COMMIT`/`ROLLBACK`
(indeed without an intervening completed one); `transactionActive` is `true`
for the whole BEGIN-to-completion interval; and at most one chain owns the
slot at any time, i.e. at most one such interval is in progress. -/
theorem c1_mutual_exclusion (ws : List Work) (c : Cfg) (h : Steps (initCfg ws) c) :
    goodFrom false false c.trace = true ∧
    (∀ (tr1 tr2 tr3 : List Ev) (i j : Nat),
      c.trace = tr1 ++ .begin i :: (tr2 ++ .begin j :: tr3) →
      (∃ e ∈ tr2, (∃ a, e = Ev.commit a) ∨ (∃ a, e = Ev.rollback a)) ∧
      (∃ e ∈ tr2, (∃ a, e = Ev.commitDone a) ∨ (∃ a, e = Ev.rollbackDone a))) ∧
    (traceActive c.trace = true → c.active = true) ∧
    (∀ i j, isOwnish (c.chains i) = true → isOwnish (c.chains j) = true → i = j) := by
  have hI := inv_reach h
  refine ⟨hI.good, ?_, ?_, hI.uniq⟩
  · intro tr1 tr2 tr3 i j he
    exact begins_separated (he ▸ hI.good)
  · intro ht
    rw [← hI.tact]
    exact ht

/-- Witness for C1: the two-chain execution in which both chains commit. -/
theorem c1_mutual_exclusion_witness :
    Steps rP0 rP12 ∧ goodFrom false false rP12.trace = true ∧
      rP12.trace = [.begin 0, .commit 0, .commitDone 0, .begin 1, .commit 1,
        .commitDone 1] :=
  ⟨steps_rP12, (c1_mutual_exclusion [.val 1, .val 2] rP12 steps_rP12).1, rfl⟩

/-- C2: Reentrancy. Entering `doInTransaction` with the chain's context flag
already set runs the work inline with no `BEGIN`/`COMMIT` and no global
state change; an inline work's value or error is returned unchanged; a
nested `doInTransaction` inside an owned transaction joins it silently; and
in the concrete nested scenario
`runInTransaction(() => runInTransaction(() => insert(...)))` every
interleaving issues at most one `BEGIN` and one `COMMIT`, and a successful
run returns the inner value 7 having issued exactly one `BEGIN`, the insert
statement, and one `COMMIT`. -/
theorem c2_reentrancy :
    (∀ (c c' : Cfg) (i : Nat) (w : Work), c.chains i = .start w →
      c.isInTransaction i = true → Step c c' → c'.chains i ≠ c.chains i →
      c'.chains i = .inlineRun w ∧ c'.trace = c.trace ∧ c'.active = c.active ∧
        c'.logs = c.logs ∧ c'.isInTransaction i = true) ∧
    (∀ (c c' : Cfg) (i : Nat) (v : Int), c.chains i = .inlineRun (.val v) →
      Step c c' → c'.chains i ≠ c.chains i →
      c'.chains i = .done (.ok v) ∧ c'.trace = c.trace ∧ c'.active = c.active ∧
        c'.logs = c.logs) ∧
    (∀ (c c' : Cfg) (i : Nat) (e : Nat), c.chains i = .inlineRun (.err e) →
      Step c c' → c'.chains i ≠ c.chains i →
      c'.chains i = .done (.error (.raw e)) ∧ c'.trace = c.trace ∧
        c'.active = c.active ∧ c'.logs = c.logs) ∧
    (∀ (c c' : Cfg) (i p : Nat) (w : Work), c.chains i = .ownRun p (.nested w) →
      Step c c' → c'.chains i ≠ c.chains i →
      c'.chains i = .ownRun p w ∧ c'.trace = c.trace ∧ c'.active = c.active ∧
        c'.logs = c.logs) ∧
    (∀ c, Steps nS0 c →
      (List.count (Ev.begin 0) c.trace ≤ 1 ∧ List.count (Ev.commit 0) c.trace ≤ 1) ∧
      (∀ v, c.chains 0 = .done (.ok v) →
        v = 7 ∧ c.trace = [.begin 0, .stmt 0 qIns, .commit 0, .commitDone 0])) := by
  refine ⟨fun c c' i w hc hf h hne => reentrant_entry hc hf h hne,
          fun c c' i v hc h hne => inline_val_result hc h hne,
          fun c c' i e hc h hne => inline_err_result hc h hne,
          fun c c' i p w hc h hne => nested_join_inline hc h hne,
          fun c h => ?_⟩
  rcases reach_nestedWork h with
    rfl|rfl|rfl|rfl|rfl|rfl|rfl|rfl|rfl|rfl|rfl|rfl|rfl|rfl|rfl|rfl|rfl|rfl <;>
    refine ⟨⟨by decide, by decide⟩, ?_⟩ <;>
    intro v hv <;>
    first
    | (exfalso
       simp [nS0, nS1, nS2, nS3, nS4, nS5, nS6, nS7, nB2, eB3, eB4, nF6, nF7, nF8,
         nC8, nC9, nC10, one, initCfg, initChains, filler] at hv)
    | (simp only [nS8, one_zero, ChainState.done.injEq, Except.ok.injEq] at hv
       exact ⟨by omega, rfl⟩)

/-- Witness for C2: the successful nested run. -/
theorem c2_reentrancy_witness :
    Steps nS0 rN8 ∧ rN8.chains 0 = .done (.ok 7) ∧
      rN8.trace = [.begin 0, .stmt 0 qIns, .commit 0, .commitDone 0] :=
  ⟨steps_rN8, rfl, ((c2_reentrancy.2.2.2.2 rN8 steps_rN8).2 7 rfl).2⟩

/-- C3 (code bug): if `work` (or `COMMIT`) fails and `ROLLBACK` also fails,
the code does NOT release the slot: the run reaches a configuration where
`transactionActive` is still `true`, the chain is stuck, no step is possible
any more, and in every extension the slot stays held — while when `ROLLBACK`
succeeds, the slot is released.  This contradicts the claim that the slot is
never left stuck Active. -/
theorem c3_rollback_failure_slot_stuck :
    (Steps eS0 rA6 ∧ rA6.active = true ∧ rA6.chains 0 = .stuckOuter 0 ∧
      (∀ c', ¬ Step rA6 c') ∧
      (∀ c', Steps rA6 c' → c'.chains 0 = .stuckOuter 0 ∧ c'.active = true)) ∧
    (Steps eS0 rA5 ∧ rA5.active = false) ∧
    (∀ (c c' : Cfg) (i p : Nat) (e : TErr), Inv c →
      c.chains i = .ownRollback p e → Step c c' → c'.chains i ≠ c.chains i →
      (c'.chains i = .done (.error e) ∧ c'.active = false) ∨
      (c'.chains i = .stuckOuter p ∧ c'.active = true)) := by
  refine ⟨⟨steps_rA6, rfl, rfl, fun c' h => (no_step_of_inert rA6_inert h).elim,
            fun c' h => @stuck_forever rA6 0 0 (@inv_reach [.err 5] rA6 steps_rA6)
              rfl rfl c' h⟩,
          ⟨steps_rA5, rfl⟩, ?_⟩
  intro c c' i p e hI hc h hne
  rcases rollback_release_or_stick hc h hne with ⟨h1, h2, -, -⟩ | ⟨h1, h2, -, -, -⟩
  · exact Or.inl ⟨h1, h2⟩
  · refine Or.inr ⟨h1, ?_⟩
    rw [h2]
    exact hI.act.mpr ⟨i, by rw [hc]; rfl⟩

/-- Witness for C3: the stuck configuration persists under the empty
extension. -/
theorem c3_rollback_failure_slot_stuck_witness :
    rA6.chains 0 = .stuckOuter 0 ∧ rA6.active = true :=
  c3_rollback_failure_slot_stuck.1.2.2.2.2 rA6 (Steps.refl rA6)

/-- C4 (code bug): when the work throws `e`, every interleaving issues
`ROLLBACK` exactly once and the caller observes exactly `e` (never a
rollback-derived error) with the slot back to Idle — provided `ROLLBACK`
succeeds.  When `ROLLBACK` itself fails, both errors are indeed logged, but
the caller never observes anything: the chain never reaches `done`. -/
theorem c4_work_error_semantics :
    (∀ c, Steps eS0 c → (0, LogEntry.txnFail (.raw 5)) ∈ c.logs →
      List.count (Ev.rollback 0) c.trace = 1 ∧
      (∀ r, c.chains 0 = .done r →
        r = .error (.raw 5) ∧ c.active = false ∧ c.isInTransaction 0 = false)) ∧
    (Steps eS0 rA5 ∧ rA5.chains 0 = .done (.error (.raw 5)) ∧ rA5.active = false ∧
      rA5.trace = [.begin 0, .rollback 0, .rollbackDone 0] ∧
      rA5.logs = [(0, .txnFail (.raw 5))]) ∧
    (Steps eS0 rA6 ∧ (0, LogEntry.txnFail (.raw 5)) ∈ rA6.logs ∧
      (0, LogEntry.queryFail "ROLLBACK") ∈ rA6.logs ∧
      (∀ c' r, Steps rA6 c' → c'.chains 0 ≠ .done r)) := by
  refine ⟨fun c h hm => ?_, ⟨steps_rA5, rfl, rfl, rfl, rfl⟩,
          ⟨steps_rA6, by decide, by decide, fun c' r h hv => ?_⟩⟩
  · rcases reach_errWork h with rfl|rfl|rfl|rfl|rfl|rfl|rfl|rfl|rfl|rfl <;>
    first
    | (exfalso
       simp [eS0, eS1, eS2, eS3, eB2, eB3, eB4, initCfg] at hm)
    | (refine ⟨by decide, ?_⟩
       intro r hv
       first
       | (exfalso
          simp [eS4, eS6, one, filler] at hv)
       | (simp only [eS5, one_zero, ChainState.done.injEq] at hv
          subst hv
          exact ⟨rfl, rfl, rfl⟩))
  · obtain ⟨hstuck, -⟩ :=
      @stuck_forever rA6 0 0 (@inv_reach [.err 5] rA6 steps_rA6) rfl rfl c' h
    rw [hstuck] at hv
    simp at hv

/-- Witness for C4: the successful-rollback run. -/
theorem c4_work_error_semantics_witness :
    Steps eS0 rA5 ∧ List.count (Ev.rollback 0) rA5.trace = 1 :=
  ⟨steps_rA5, (c4_work_error_semantics.1 rA5 steps_rA5 (by decide)).1⟩

/-- C5 (code bug): in every interleaving a waiter's `BEGIN` is issued only
after the owner's `COMMIT`/`ROLLBACK` completion; when the owner commits, the
waiter can proceed and complete its own transaction; but when the owner's
transaction is rolled back, the rejection of the shared promise is re-thrown
out of the waiter's `doInTransaction`: the waiter observes the owner's error
and never issues `BEGIN`, contradicting "B proceeds regardless of whether A
succeeded or failed". -/
theorem c5_waiter_progress :
    (∀ (ws : List Work) (c : Cfg) (tr1 tr2 tr3 : List Ev) (i j : Nat),
      Steps (initCfg ws) c →
      c.trace = tr1 ++ .begin i :: (tr2 ++ .begin j :: tr3) →
      ∃ e ∈ tr2, (∃ a, e = Ev.commitDone a) ∨ (∃ a, e = Ev.rollbackDone a)) ∧
    (Steps rP0 rP12 ∧
      rP12.trace = [.begin 0, .commit 0, .commitDone 0, .begin 1, .commit 1,
        .commitDone 1] ∧
      rP12.chains 0 = .done (.ok 1) ∧ rP12.chains 1 = .done (.ok 2)) ∧
    (∀ (c c' : Cfg) (i p : Nat) (w : Work) (e : TErr),
      c.chains i = .waiting p w → c.settled p = some (some e) →
      Step c c' → c'.chains i ≠ c.chains i →
      c'.chains i = .done (.error e) ∧ c'.trace = c.trace) ∧
    (Steps rQ0 rQ8 ∧ rQ8.chains 1 = .done (.error (.raw 5)) ∧
      List.count (Ev.begin 1) rQ8.trace = 0 ∧ (∀ c', ¬ Step rQ8 c')) := by
  refine ⟨fun ws c tr1 tr2 tr3 i j h he => (begins_separated (he ▸ (inv_reach h).good)).2,
          ⟨steps_rP12, rfl, rfl, rfl⟩,
          fun c c' i p w e hc hs h hne => ?_,
          ⟨steps_rQ8, rfl, by decide, fun c' h => no_step_of_inert rQ8_inert h⟩⟩
  obtain ⟨h1, h2, -⟩ := waiting_rejected hc hs h hne
  exact ⟨h1, h2⟩

/-- Witness for C5: the concrete rejected-waiter step. -/
theorem c5_waiter_progress_witness :
    rQ8.chains 1 = .done (.error (.raw 5)) ∧ rQ8.trace = rQ7.trace :=
  c5_waiter_progress.2.2.1 rQ7 rQ8 1 0 (.val 7) (.raw 5) rfl rfl
    (.wakeErr rQ7 1 (.val 7) 0 (.raw 5) rfl rfl)
    (fun h => ChainState.noConfusion h)

/-- C10: a `COMMIT` failure takes the same path as a work error: in every
interleaving of the value-returning scenario, once the commit failure has
been logged the chain has issued `ROLLBACK` exactly once and the caller
observes the wrapped COMMIT error (not the work's value) with the flag
cleared and the slot idle; in general, from `ownCommit` the only transitions
are a successful commit or the logged-rollback path; and the concrete run
reaches exactly that outcome. -/
theorem c10_commit_failure_rollback :
    (∀ c, Steps vS0 c → (0, LogEntry.txnFail (.wrapped "COMMIT")) ∈ c.logs →
      List.count (Ev.rollback 0) c.trace = 1 ∧
      (∀ r, c.chains 0 = .done r →
        r = .error (.wrapped "COMMIT") ∧ c.isInTransaction 0 = false ∧
          c.active = false)) ∧
    (∀ (c c' : Cfg) (i p : Nat) (v : Int), c.chains i = .ownCommit p v →
      Step c c' → c'.chains i ≠ c.chains i →
      (c'.chains i = .done (.ok v) ∧ c'.active = false) ∨
      (c'.chains i = .ownRollback p (.wrapped "COMMIT") ∧
        c'.trace = c.trace ++ [.rollback i] ∧
        c'.logs = c.logs ++ [(i, .queryFail "COMMIT"),
          (i, .txnFail (.wrapped "COMMIT"))])) ∧
    (Steps vS0 rV6 ∧ rV6.chains 0 = .done (.error (.wrapped "COMMIT")) ∧
      rV6.trace = [.begin 0, .commit 0, .rollback 0, .rollbackDone 0] ∧
      rV6.active = false ∧ rV6.isInTransaction 0 = false ∧
      rV6.logs = [(0, .queryFail "COMMIT"), (0, .txnFail (.wrapped "COMMIT"))]) := by
  refine ⟨fun c h hm => ?_, fun c c' i p v hc h hne => ?_,
          ⟨steps_rV6, rfl, rfl, rfl, rfl, rfl⟩⟩
  · rcases reach_valWork h with rfl|rfl|rfl|rfl|rfl|rfl|rfl|rfl|rfl|rfl|rfl|rfl <;>
    first
    | (exfalso
       simp [vS0, vS1, vS2, vS3, vS4, vS5, vB2, eB3, eB4, initCfg] at hm)
    | (refine ⟨by decide, ?_⟩
       intro r hv
       first
       | (exfalso
          simp [vC6, vC8, one, filler] at hv)
       | (simp only [vC7, one_zero, ChainState.done.injEq] at hv
          subst hv
          exact ⟨rfl, rfl, rfl⟩))
  · rcases commit_ok_or_fail hc h hne with ⟨h1, h2, -, -, -⟩ | ⟨h1, -, h3, h4⟩
    · exact Or.inl ⟨h1, h2⟩
    · exact Or.inr ⟨h1, h3, h4⟩

/-- Witness for C10: the concrete commit-failure run. -/
theorem c10_commit_failure_rollback_witness :
    Steps vS0 rV6 ∧ List.count (Ev.rollback 0) rV6.trace = 1 :=
  ⟨steps_rV6, (c10_commit_failure_rollback.1 rV6 steps_rV6 (by decide)).1⟩

/-- C6: `insert` on a record with zero fields performs no statement, records
one error-level log line, and returns without a row identifier and without
throwing; on a record with at least one field it executes the built
`INSERT` statement with the record's values as positional parameters and
returns the driver's last-inserted-row identifier. -/
theorem c6_insert_empty_noop :
    (∀ (table : String) (rep : Bool) (t : String) (d : Except JsError Int),
      insert table [] rep t d =
        { logs := ["Can't insert empty object into table " ++ table],
          stmts := [], result := .ok none }) ∧
    (∀ (table k : String) (v : SVal) (rec : List (String × SVal)) (rep : Bool)
        (t : String) (lastID : Int),
      insert table ((k, v) :: rec) rep t (.ok lastID) =
        { logs := [],
          stmts := [(insertQuery table ((k, v) :: rec) rep, v :: rec.map Prod.snd)],
          result := .ok (some lastID) }) :=
  ⟨fun table rep t d => rfl, fun table k v rec rep t lastID => rfl⟩

/-- C7: `getValue` returns the value of the first column of the first row,
and `null` (without error) when the query yields no rows; `getRowOrNull`
returns the first row or `null` and never an error in the no-rows case. -/
theorem c7_getValue_first_or_null :
    (∀ t : String, getValue t (.ok []) = ([], .ok .null)) ∧
    (∀ (t : String) (r : Row) (rows : List Row),
      getValue t (.ok (r :: rows)) = ([], .ok (firstVal r))) ∧
    (∀ t : String, getRowOrNull t (.ok []) = ([], .ok none)) ∧
    (∀ (t : String) (r : Row) (rows : List Row),
      getRowOrNull t (.ok (r :: rows)) = ([], .ok (some r))) := by
  refine ⟨fun t => rfl, fun t r rows => ?_, fun t => rfl, fun t r rows => ?_⟩
  · simp [getValue, getRowOrNull, getRows, wrap]
  · simp [getRowOrNull, getRows, wrap]

/-- C8: `getMap` maps each row's first-column value (coerced to a property
key) to its second-column value across all rows, later rows overwriting
earlier ones with the same key — last write wins, never an error; on rows
`[(k1,v1), (k1,v2)]` the result maps `k1` to `v2`. -/
theorem c8_getMap_last_write_wins :
    (∀ (rows : List Row) (k : String),
      objLookup (getMapPure rows) k =
        (match rows.reverse.find? (fun r => svalKey (firstVal r) == k) with
         | some r => some (secondVal r)
         | none => none)) ∧
    (getMapPure [[("a", .str "k1"), ("b", .int 1)], [("a", .str "k1"), ("b", .int 2)]] =
      [("k1", .int 2)]) ∧
    (∀ (t : String) (rows : List Row),
      getMap t (.ok rows) = ([], .ok (getMapPure rows))) :=
  ⟨fun rows k => getMap_fold_lookup rows [] k, rfl, fun t rows => rfl⟩

/-- C9 (counterexample): the re-raised error's `message` is the causing
error's stack alone, not its concatenation with the freshly captured
call-site trace (the concatenation appears only in the log line). -/
theorem c9_counterexample :
    (wrapErr { message := "boom", stack := "S" } "T").message ≠
      ({ message := "boom", stack := "S" } : JsError).stack ++ "T" ∧
    getRows "T" (.error { message := "boom", stack := "S" }) =
      (["Error executing query. Inner exception: " ++ "S" ++ "T"],
        .error { message := "S", stack := "T" }) :=
  ⟨by decide, rfl⟩

/-- C9 (amended): every helper funnels a driver failure through `wrap`,
which first logs one line concatenating the causing error's diagnostic text
with the freshly captured call-site trace, then re-raises one error value
whose `message` is the causing error's diagnostic text and whose own trace
field is the call-site trace; no helper other than empty-record `insert`
absorbs a driver error. -/
theorem c9_wrap_failure_shape :
    (∀ (t : String) (e : JsError),
      wrapLog e t = "Error executing query. Inner exception: " ++ e.stack ++ t ∧
      (wrapErr e t).message = e.stack ∧ (wrapErr e t).stack = t) ∧
    (∀ (t : String) (e : JsError),
      getRows t (.error e) = ([wrapLog e t], .error (wrapErr e t)) ∧
      getRow t (.error e) = ([wrapLog e t], .error (wrapErr e t)) ∧
      getRowOrNull t (.error e) = ([wrapLog e t], .error (wrapErr e t)) ∧
      getValue t (.error e) = ([wrapLog e t], .error (wrapErr e t)) ∧
      getMap t (.error e) = ([wrapLog e t], .error (wrapErr e t))) ∧
    (∀ (table k : String) (v : SVal) (rec : List (String × SVal)) (rep : Bool)
        (t : String) (e : JsError),
      insert table ((k, v) :: rec) rep t (.error e) =
        { logs := [wrapLog e t],
          stmts := [(insertQuery table ((k, v) :: rec) rep, v :: rec.map Prod.snd)],
          result := .error (wrapErr e t) }) :=
  ⟨fun t e => ⟨rfl, rfl, rfl⟩,
   fun t e => ⟨rfl, rfl, rfl, rfl, rfl⟩,
   fun table k v rec rep t e => rfl⟩

end Trilium
